import Mathlib

/-!
# Verification of the coolssh SSH 2.0 client core

Shallow embedding, in Lean 4, of the parts of the `coolssh` repository that
the specification's claims are about.  Bytes are modelled as `Nat` (with the
range invariants of the Rust integer types carried as explicit hypotheses
where they matter), byte strings as `List Nat`, and fallible code as
`Except Error`.  Every definition is translated from the Rust sources
(`src/parsedump.rs`, `src/messages.rs`, `src/userauth.rs`,
`src/channelrequest.rs`, `src/packets.rs`, `src/connection.rs`, `src/run.rs`);
the few definitions that instead transcribe the specification's words are
explicitly marked as such in their doc comments.
-/

namespace Coolssh

/-! ## Wire primitives (src/parsedump.rs) -/

/-- The error kinds surfaced by the client (spec §7).  The sources under
`src/` construct `TruncatedInput` (`too_short`), `InvalidData`,
`UnknownMessageType`, `UnexpectedMessageType`, `Unimplemented` and
`Timeout`; `AuthenticationFailure` is listed by the specification's error
design (§7) but is never constructed by any source file. -/
inductive Error where
  | truncatedInput : Error
  | invalidData : Error
  | unknownMessageType (value : Nat) : Error
  | unexpectedMessageType (typ : Nat) : Error
  | unimplemented : Error
  | timeout : Error
  | authenticationFailure : Error
  deriving DecidableEq, Repr

/-- Big-endian dump of a `u32` (`u32::to_be_bytes`): four base-256 digits. -/
def u32be (n : Nat) : List Nat :=
  [n / 2 ^ 24 % 256, n / 2 ^ 16 % 256, n / 2 ^ 8 % 256, n % 256]

/-- `try_u32` from src/parsedump.rs: decode a big-endian `u32` from the first
four bytes, failing (`too_short`) when fewer than four bytes remain. -/
def try_u32 : List Nat → Except Error Nat
  | b0 :: b1 :: b2 :: b3 :: _ => .ok (((b0 * 256 + b1) * 256 + b2) * 256 + b3)
  | _ => .error .truncatedInput

/-- `u8::parse`: the first byte, and a consumed count of 1. -/
def u8Parse : List Nat → Except Error (Nat × Nat)
  | b :: _ => .ok (b, 1)
  | [] => .error .truncatedInput

/-- `u8::dump`: write the byte. -/
def u8Dump (n : Nat) : List Nat := [n]

/-- `u32::parse`. -/
def u32Parse (b : List Nat) : Except Error (Nat × Nat) := do
  let v ← try_u32 b
  .ok (v, 4)

/-- `u32::dump`. -/
def u32Dump (n : Nat) : List Nat := u32be n

/-- `bool::parse`: one byte, non-zero means `true`. -/
def boolParse : List Nat → Except Error (Bool × Nat)
  | b :: _ => .ok (b ≠ 0, 1)
  | [] => .error .truncatedInput

/-- `bool::dump`: `*self as u8`. -/
def boolDump (v : Bool) : List Nat := [if v then 1 else 0]

/-- `[u8; 16]::parse` (`try_get`): the first 16 bytes verbatim. -/
def arr16Parse (b : List Nat) : Except Error (List Nat × Nat) :=
  if 16 ≤ b.length then .ok (b.take 16, 16) else .error .truncatedInput

/-- `[u8; 16]::dump`: the 16 bytes verbatim. -/
def arr16Dump (l : List Nat) : List Nat := l

/-- `<&[u8]>::parse`: 4-byte big-endian length, then that many bytes. -/
def bytesParse (b : List Nat) : Except Error (List Nat × Nat) := do
  let n ← try_u32 b
  if 4 + n ≤ b.length then .ok ((b.drop 4).take n, 4 + n)
  else .error .truncatedInput

/-- `<&[u8]>::dump`: `(len as u32)` big-endian, then the bytes. -/
def bytesDump (l : List Nat) : List Nat := u32be l.length ++ l

/-- One UTF-8 continuation byte (`0x80..=0xBF`). -/
def utf8Cont (b : Nat) : Bool := 0x80 ≤ b && b < 0xC0

/-- UTF-8 validity of a byte sequence, as checked by Rust's
`core::str::from_utf8` (RFC 3629: no overlong forms, no surrogates,
no code point above U+10FFFF). -/
def utf8Valid : List Nat → Bool
  | [] => true
  | b :: rest =>
    if b < 0x80 then utf8Valid rest
    else if b < 0xC2 then false
    else if b < 0xE0 then
      match rest with
      | c1 :: r => utf8Cont c1 && utf8Valid r
      | [] => false
    else if b < 0xF0 then
      match rest with
      | c1 :: c2 :: r =>
        (if b = 0xE0 then 0xA0 ≤ c1 && c1 < 0xC0
         else if b = 0xED then 0x80 ≤ c1 && c1 < 0xA0
         else utf8Cont c1) && utf8Cont c2 && utf8Valid r
      | _ => false
    else if b < 0xF5 then
      match rest with
      | c1 :: c2 :: c3 :: r =>
        (if b = 0xF0 then 0x90 ≤ c1 && c1 < 0xC0
         else if b = 0xF4 then 0x80 ≤ c1 && c1 < 0x90
         else utf8Cont c1) && utf8Cont c2 && utf8Cont c3 && utf8Valid r
      | _ => false
    else false

/-- `<&str>::parse`: a `bytes` field whose payload must be valid UTF-8. -/
def strParse (b : List Nat) : Except Error (List Nat × Nat) := do
  let (s, n) ← bytesParse b
  if utf8Valid s then .ok (s, n) else .error .invalidData

/-- `<&str>::dump` = `self.as_bytes().dump`. -/
def strDump (l : List Nat) : List Nat := bytesDump l

/-- ASCII text as its UTF-8 byte sequence (helper for concrete inputs). -/
def ascii (s : String) : List Nat := s.data.map Char.toNat

/-! ## Multi-precision integers (src/messages.rs, `UnsignedMpInt`) -/

/-- `UnsignedMpInt::parse`: identical to the `bytes` primitive, returning the
raw magnitude slice. -/
def mpintParse (b : List Nat) : Except Error (List Nat × Nat) := bytesParse b

/-- `UnsignedMpInt::dump` (src/messages.rs lines 425-441): if the slice holds
a non-zero byte, write `len + prevent_sign` as a `u32`, a single `0x00` when
the *first byte of the slice* has its high bit set, then the whole slice
verbatim; otherwise dump the `u32` zero. -/
def mpintDump (m : List Nat) : List Nat :=
  if m.any (fun b => b ≠ 0) then
    u32be (m.length + if m.headI &&& 0x80 ≠ 0 then 1 else 0) ++
      (if m.headI &&& 0x80 ≠ 0 then [0] else []) ++ m
  else
    u32be 0

/-- Modelled from the spec (§3 "Mpint encoding"): leading zero bytes of the
magnitude are omitted, one `0x00` is prepended when the high bit of the first
retained byte is set, and zero is encoded as length 0.  Used only to compare
the source's `mpintDump` against the specification's words. -/
def specMpintDump (m : List Nat) : List Nat :=
  let s := m.dropWhile (fun b => b = 0)
  if s = [] then u32be 0
  else if s.headI &&& 0x80 ≠ 0 then u32be (s.length + 1) ++ [0] ++ s
  else u32be s.length ++ s

/-- A minimal (well-formed) mpint magnitude: empty, or leading byte non-zero
with clear high bit, or a single `0x00` followed by a byte with its high bit
set (bytes stay below 256). -/
def minimalMag : List Nat → Bool
  | [] => true
  | [h] => h ≠ 0 && h < 128
  | h :: h2 :: _ => (h ≠ 0 && h < 128) || (h = 0 && 128 ≤ h2 && h2 < 256)

/-! ## Monad and length helper lemmas -/

instance {α β : Type} [DecidableEq α] [DecidableEq β] : DecidableEq (Except α β)
  | .error a, .error b =>
    if h : a = b then .isTrue (by rw [h]) else .isFalse (by simp [h])
  | .error _, .ok _ => .isFalse (by simp)
  | .ok _, .error _ => .isFalse (by simp)
  | .ok a, .ok b =>
    if h : a = b then .isTrue (by rw [h]) else .isFalse (by simp [h])

@[simp] theorem ebind_ok {α β : Type} (a : α) (f : α → Except Error β) :
    (Except.ok a >>= f) = f a := rfl

@[simp] theorem ebind_error {α β : Type} (e : Error) (f : α → Except Error β) :
    ((Except.error e : Except Error α) >>= f) = .error e := rfl

@[simp] theorem u32be_length (n : Nat) : (u32be n).length = 4 := rfl

@[simp] theorem u8Dump_length (n : Nat) : (u8Dump n).length = 1 := rfl

@[simp] theorem u32Dump_length (n : Nat) : (u32Dump n).length = 4 := rfl

@[simp] theorem boolDump_length (v : Bool) : (boolDump v).length = 1 := by cases v <;> rfl

@[simp] theorem bytesDump_length (l : List Nat) : (bytesDump l).length = 4 + l.length := by
  simp [bytesDump]

@[simp] theorem strDump_length (l : List Nat) : (strDump l).length = 4 + l.length := by
  simp [strDump]

theorem arr16Dump_length (l : List Nat) : (arr16Dump l).length = l.length := rfl

@[simp] theorem drop_one_cons {a : Nat} {l : List Nat} : (a :: l).drop 1 = l := rfl

/-! ## Round-trip lemmas for the wire primitives -/

theorem try_u32_u32be (n : Nat) (rest : List Nat) :
    try_u32 (u32be n ++ rest) = .ok (n % 2 ^ 32) := by
  simp only [u32be, List.cons_append, List.nil_append, try_u32, Except.ok.injEq]
  omega

theorem u32Parse_u32Dump (n : Nat) (rest : List Nat) (h : n < 2 ^ 32) :
    u32Parse (u32Dump n ++ rest) = .ok (n, (u32Dump n).length) := by
  simp [u32Parse, u32Dump, try_u32_u32be, Prod.ext_iff]
  omega

theorem u8Parse_u8Dump (n : Nat) (rest : List Nat) :
    u8Parse (u8Dump n ++ rest) = .ok (n, (u8Dump n).length) := rfl

theorem boolParse_boolDump (v : Bool) (rest : List Nat) :
    boolParse (boolDump v ++ rest) = .ok (v, (boolDump v).length) := by
  cases v <;> rfl

theorem bytesParse_bytesDump (l rest : List Nat) (h : l.length < 2 ^ 32) :
    bytesParse (bytesDump l ++ rest) = .ok (l, (bytesDump l).length) := by
  simp only [bytesParse, bytesDump, List.append_assoc, try_u32_u32be, ebind_ok,
    Nat.mod_eq_of_lt h]
  rw [if_pos]
  · rw [show (4 : Nat) = (u32be l.length).length from rfl, List.drop_left, List.take_left]
    simp
  · simp

theorem strParse_strDump (l rest : List Nat) (h1 : l.length < 2 ^ 32)
    (h2 : utf8Valid l = true) :
    strParse (strDump l ++ rest) = .ok (l, (strDump l).length) := by
  simp only [strParse, strDump, bytesParse_bytesDump l rest h1, ebind_ok, h2, if_pos]

theorem arr16Parse_arr16Dump (l rest : List Nat) (h : l.length = 16) :
    arr16Parse (arr16Dump l ++ rest) = .ok (l, (arr16Dump l).length) := by
  simp only [arr16Parse, arr16Dump, List.length_append, h]
  rw [if_pos (by omega), List.take_left' h]

theorem mpintParse_of_bytes (l rest : List Nat) (h : l.length < 2 ^ 32) :
    mpintParse (bytesDump l ++ rest) = .ok (l, (bytesDump l).length) :=
  bytesParse_bytesDump l rest h

/-! ## Message type registry (src/messages.rs, `MessageType`) -/

/-- The message-type bytes accepted by `MessageType::try_from`
(src/messages.rs lines 378-414). -/
def messageTypeKnown : Nat → Bool
  | 1 | 2 | 3 | 4 | 5 | 6 | 20 | 21 | 30 | 31 | 50 | 51 | 52 | 53 | 60
  | 80 | 81 | 82 | 90 | 91 | 92 | 93 | 94 | 95 | 96 | 97 | 98 | 99 | 100 => true
  | _ => false

/-! ## The tagged message records (src/messages.rs, `parse_dump_struct!`)

Each Rust struct generated by `parse_dump_struct!` becomes a Lean structure
with a `parseCore` (the field-by-field parse that runs after the message-type
check, accumulating the consumed count `i` exactly as the macro does), a
`parse` (type check then fields) and a `dump` (type byte then fields). -/

structure Disconnect where
  reason_code : Nat
  description : List Nat
  language_tag : List Nat
  deriving DecidableEq, Repr

/-- `DisconnectReasonCode::parse`: one byte, accepted when within `1..=15`
(src/messages.rs lines 464-489). The code is kept as its byte value. -/
def reasonCodeParse (b : List Nat) : Except Error (Nat × Nat) := do
  let (byte, progress) ← u8Parse b
  if 1 ≤ byte ∧ byte ≤ 15 then .ok (byte, progress) else .error .invalidData

/-- `DisconnectReasonCode::dump`: the code byte. -/
def reasonCodeDump (r : Nat) : List Nat := u8Dump r

def Disconnect.parseCore (b : List Nat) : Except Error (Disconnect × Nat) := do
  let s := b.drop 1
  let (reason_code, n1) ← reasonCodeParse s
  let (description, n2) ← strParse (s.drop n1)
  let (language_tag, n3) ← strParse ((s.drop n1).drop n2)
  .ok (⟨reason_code, description, language_tag⟩, 1 + n1 + n2 + n3)

def Disconnect.dump (m : Disconnect) : List Nat :=
  u8Dump 1 ++ reasonCodeDump m.reason_code ++ strDump m.description ++ strDump m.language_tag

structure Unimplemented where
  packet_number : Nat
  deriving DecidableEq, Repr

def Unimplemented.parseCore (b : List Nat) : Except Error (Unimplemented × Nat) := do
  let s := b.drop 1
  let (packet_number, n1) ← u32Parse s
  .ok (⟨packet_number⟩, 1 + n1)

def Unimplemented.dump (m : Unimplemented) : List Nat :=
  u8Dump 3 ++ u32Dump m.packet_number

structure ServiceRequest where
  service_name : List Nat
  deriving DecidableEq, Repr

def ServiceRequest.parseCore (b : List Nat) : Except Error (ServiceRequest × Nat) := do
  let s := b.drop 1
  let (service_name, n1) ← strParse s
  .ok (⟨service_name⟩, 1 + n1)

def ServiceRequest.dump (m : ServiceRequest) : List Nat :=
  u8Dump 5 ++ strDump m.service_name

structure ServiceAccept where
  service_name : List Nat
  deriving DecidableEq, Repr

def ServiceAccept.parseCore (b : List Nat) : Except Error (ServiceAccept × Nat) := do
  let s := b.drop 1
  let (service_name, n1) ← strParse s
  .ok (⟨service_name⟩, 1 + n1)

def ServiceAccept.dump (m : ServiceAccept) : List Nat :=
  u8Dump 6 ++ strDump m.service_name

structure Kexinit where
  cookie : List Nat
  kex_algorithms : List Nat
  server_host_key_algorithms : List Nat
  encryption_algorithms_client_to_server : List Nat
  encryption_algorithms_server_to_client : List Nat
  mac_algorithms_client_to_server : List Nat
  mac_algorithms_server_to_client : List Nat
  compression_algorithms_client_to_server : List Nat
  compression_algorithms_server_to_client : List Nat
  languages_client_to_server : List Nat
  languages_server_to_client : List Nat
  first_kex_packet_follows : Bool
  nop : Nat
  deriving DecidableEq, Repr

def Kexinit.parseCore (b : List Nat) : Except Error (Kexinit × Nat) := do
  let s := b.drop 1
  let (cookie, n1) ← arr16Parse s
  let (kex_algorithms, n2) ← strParse (s.drop n1)
  let (server_host_key_algorithms, n3) ← strParse ((s.drop n1).drop n2)
  let (encryption_algorithms_client_to_server, n4) ← strParse (((s.drop n1).drop n2).drop n3)
  let (encryption_algorithms_server_to_client, n5) ←
    strParse ((((s.drop n1).drop n2).drop n3).drop n4)
  let (mac_algorithms_client_to_server, n6) ←
    strParse (((((s.drop n1).drop n2).drop n3).drop n4).drop n5)
  let (mac_algorithms_server_to_client, n7) ←
    strParse ((((((s.drop n1).drop n2).drop n3).drop n4).drop n5).drop n6)
  let (compression_algorithms_client_to_server, n8) ←
    strParse (((((((s.drop n1).drop n2).drop n3).drop n4).drop n5).drop n6).drop n7)
  let (compression_algorithms_server_to_client, n9) ←
    strParse ((((((((s.drop n1).drop n2).drop n3).drop n4).drop n5).drop n6).drop n7).drop n8)
  let (languages_client_to_server, n10) ←
    strParse (((((((((s.drop n1).drop n2).drop n3).drop n4).drop n5).drop n6).drop n7).drop n8).drop n9)
  let (languages_server_to_client, n11) ←
    strParse ((((((((((s.drop n1).drop n2).drop n3).drop n4).drop n5).drop n6).drop n7).drop n8).drop n9).drop n10)
  let (first_kex_packet_follows, n12) ←
    boolParse (((((((((((s.drop n1).drop n2).drop n3).drop n4).drop n5).drop n6).drop n7).drop n8).drop n9).drop n10).drop n11)
  let (nop, n13) ←
    u32Parse ((((((((((((s.drop n1).drop n2).drop n3).drop n4).drop n5).drop n6).drop n7).drop n8).drop n9).drop n10).drop n11).drop n12)
  .ok (⟨cookie, kex_algorithms, server_host_key_algorithms,
        encryption_algorithms_client_to_server, encryption_algorithms_server_to_client,
        mac_algorithms_client_to_server, mac_algorithms_server_to_client,
        compression_algorithms_client_to_server, compression_algorithms_server_to_client,
        languages_client_to_server, languages_server_to_client,
        first_kex_packet_follows, nop⟩,
      1 + n1 + n2 + n3 + n4 + n5 + n6 + n7 + n8 + n9 + n10 + n11 + n12 + n13)

def Kexinit.dump (m : Kexinit) : List Nat :=
  u8Dump 20 ++ arr16Dump m.cookie ++ strDump m.kex_algorithms ++
    strDump m.server_host_key_algorithms ++
    strDump m.encryption_algorithms_client_to_server ++
    strDump m.encryption_algorithms_server_to_client ++
    strDump m.mac_algorithms_client_to_server ++
    strDump m.mac_algorithms_server_to_client ++
    strDump m.compression_algorithms_client_to_server ++
    strDump m.compression_algorithms_server_to_client ++
    strDump m.languages_client_to_server ++
    strDump m.languages_server_to_client ++
    boolDump m.first_kex_packet_follows ++ u32Dump m.nop

structure Newkeys where
  deriving DecidableEq, Repr

def Newkeys.parseCore (_b : List Nat) : Except Error (Newkeys × Nat) :=
  .ok (⟨⟩, 1)

def Newkeys.dump (_m : Newkeys) : List Nat := u8Dump 21

structure KexdhInit where
  client_ephemeral_pubkey : List Nat
  deriving DecidableEq, Repr

def KexdhInit.parseCore (b : List Nat) : Except Error (KexdhInit × Nat) := do
  let s := b.drop 1
  let (client_ephemeral_pubkey, n1) ← bytesParse s
  .ok (⟨client_ephemeral_pubkey⟩, 1 + n1)

def KexdhInit.dump (m : KexdhInit) : List Nat :=
  u8Dump 30 ++ bytesDump m.client_ephemeral_pubkey

structure Blob where
  blob_len : Nat
  header : List Nat
  content : List Nat
  deriving DecidableEq, Repr

/-- `Blob` is untagged (`MessageType::from_struct_name` knows no `Blob`), so
its parse starts at offset 0 with no message-type check. -/
def Blob.parse (b : List Nat) : Except Error (Blob × Nat) := do
  let (blob_len, n1) ← u32Parse b
  let (header, n2) ← strParse (b.drop n1)
  let (content, n3) ← bytesParse ((b.drop n1).drop n2)
  .ok (⟨blob_len, header, content⟩, n1 + n2 + n3)

def Blob.dump (m : Blob) : List Nat :=
  u32Dump m.blob_len ++ strDump m.header ++ bytesDump m.content

structure KexdhReply where
  server_public_host_key : Blob
  server_ephemeral_pubkey : List Nat
  exchange_hash_signature : Blob
  deriving DecidableEq, Repr

def KexdhReply.parseCore (b : List Nat) : Except Error (KexdhReply × Nat) := do
  let s := b.drop 1
  let (server_public_host_key, n1) ← Blob.parse s
  let (server_ephemeral_pubkey, n2) ← bytesParse (s.drop n1)
  let (exchange_hash_signature, n3) ← Blob.parse ((s.drop n1).drop n2)
  .ok (⟨server_public_host_key, server_ephemeral_pubkey, exchange_hash_signature⟩,
      1 + n1 + n2 + n3)

def KexdhReply.dump (m : KexdhReply) : List Nat :=
  u8Dump 31 ++ m.server_public_host_key.dump ++ bytesDump m.server_ephemeral_pubkey ++
    m.exchange_hash_signature.dump

structure UserauthFailure where
  allowed_auth : List Nat
  partial_success : Bool
  deriving DecidableEq, Repr

def UserauthFailure.parseCore (b : List Nat) : Except Error (UserauthFailure × Nat) := do
  let s := b.drop 1
  let (allowed_auth, n1) ← strParse s
  let (partial_success, n2) ← boolParse (s.drop n1)
  .ok (⟨allowed_auth, partial_success⟩, 1 + n1 + n2)

def UserauthFailure.dump (m : UserauthFailure) : List Nat :=
  u8Dump 51 ++ strDump m.allowed_auth ++ boolDump m.partial_success

structure UserauthSuccess where
  deriving DecidableEq, Repr

def UserauthSuccess.parseCore (_b : List Nat) : Except Error (UserauthSuccess × Nat) :=
  .ok (⟨⟩, 1)

def UserauthSuccess.dump (_m : UserauthSuccess) : List Nat := u8Dump 52

structure UserauthPkOk where
  algorithm : List Nat
  blob : Blob
  deriving DecidableEq, Repr

def UserauthPkOk.parseCore (b : List Nat) : Except Error (UserauthPkOk × Nat) := do
  let s := b.drop 1
  let (algorithm, n1) ← strParse s
  let (blob, n2) ← Blob.parse (s.drop n1)
  .ok (⟨algorithm, blob⟩, 1 + n1 + n2)

def UserauthPkOk.dump (m : UserauthPkOk) : List Nat :=
  u8Dump 60 ++ strDump m.algorithm ++ m.blob.dump

structure GlobalRequest where
  request_name : List Nat
  want_reply : Bool
  deriving DecidableEq, Repr

def GlobalRequest.parseCore (b : List Nat) : Except Error (GlobalRequest × Nat) := do
  let s := b.drop 1
  let (request_name, n1) ← strParse s
  let (want_reply, n2) ← boolParse (s.drop n1)
  .ok (⟨request_name, want_reply⟩, 1 + n1 + n2)

def GlobalRequest.dump (m : GlobalRequest) : List Nat :=
  u8Dump 80 ++ strDump m.request_name ++ boolDump m.want_reply

structure ChannelOpen where
  channel_type : List Nat
  client_channel : Nat
  client_initial_window_size : Nat
  client_max_packet_size : Nat
  deriving DecidableEq, Repr

def ChannelOpen.parseCore (b : List Nat) : Except Error (ChannelOpen × Nat) := do
  let s := b.drop 1
  let (channel_type, n1) ← strParse s
  let (client_channel, n2) ← u32Parse (s.drop n1)
  let (client_initial_window_size, n3) ← u32Parse ((s.drop n1).drop n2)
  let (client_max_packet_size, n4) ← u32Parse (((s.drop n1).drop n2).drop n3)
  .ok (⟨channel_type, client_channel, client_initial_window_size, client_max_packet_size⟩,
      1 + n1 + n2 + n3 + n4)

def ChannelOpen.dump (m : ChannelOpen) : List Nat :=
  u8Dump 90 ++ strDump m.channel_type ++ u32Dump m.client_channel ++
    u32Dump m.client_initial_window_size ++ u32Dump m.client_max_packet_size

structure ChannelOpenConfirmation where
  client_channel : Nat
  server_channel : Nat
  server_initial_window_size : Nat
  server_max_packet_size : Nat
  deriving DecidableEq, Repr

def ChannelOpenConfirmation.parseCore (b : List Nat) :
    Except Error (ChannelOpenConfirmation × Nat) := do
  let s := b.drop 1
  let (client_channel, n1) ← u32Parse s
  let (server_channel, n2) ← u32Parse (s.drop n1)
  let (server_initial_window_size, n3) ← u32Parse ((s.drop n1).drop n2)
  let (server_max_packet_size, n4) ← u32Parse (((s.drop n1).drop n2).drop n3)
  .ok (⟨client_channel, server_channel, server_initial_window_size, server_max_packet_size⟩,
      1 + n1 + n2 + n3 + n4)

def ChannelOpenConfirmation.dump (m : ChannelOpenConfirmation) : List Nat :=
  u8Dump 91 ++ u32Dump m.client_channel ++ u32Dump m.server_channel ++
    u32Dump m.server_initial_window_size ++ u32Dump m.server_max_packet_size

structure ChannelOpenFailure where
  client_channel : Nat
  reason_code : Nat
  description : List Nat
  language_tag : List Nat
  deriving DecidableEq, Repr

def ChannelOpenFailure.parseCore (b : List Nat) : Except Error (ChannelOpenFailure × Nat) := do
  let s := b.drop 1
  let (client_channel, n1) ← u32Parse s
  let (reason_code, n2) ← u32Parse (s.drop n1)
  let (description, n3) ← strParse ((s.drop n1).drop n2)
  let (language_tag, n4) ← strParse (((s.drop n1).drop n2).drop n3)
  .ok (⟨client_channel, reason_code, description, language_tag⟩, 1 + n1 + n2 + n3 + n4)

def ChannelOpenFailure.dump (m : ChannelOpenFailure) : List Nat :=
  u8Dump 92 ++ u32Dump m.client_channel ++ u32Dump m.reason_code ++
    strDump m.description ++ strDump m.language_tag

structure ChannelData where
  recipient_channel : Nat
  data : List Nat
  deriving DecidableEq, Repr

def ChannelData.parseCore (b : List Nat) : Except Error (ChannelData × Nat) := do
  let s := b.drop 1
  let (recipient_channel, n1) ← u32Parse s
  let (data, n2) ← bytesParse (s.drop n1)
  .ok (⟨recipient_channel, data⟩, 1 + n1 + n2)

def ChannelData.dump (m : ChannelData) : List Nat :=
  u8Dump 94 ++ u32Dump m.recipient_channel ++ bytesDump m.data

structure ChannelExtendedData where
  recipient_channel : Nat
  data_type : Nat
  data : List Nat
  deriving DecidableEq, Repr

def ChannelExtendedData.parseCore (b : List Nat) :
    Except Error (ChannelExtendedData × Nat) := do
  let s := b.drop 1
  let (recipient_channel, n1) ← u32Parse s
  let (data_type, n2) ← u32Parse (s.drop n1)
  let (data, n3) ← bytesParse ((s.drop n1).drop n2)
  .ok (⟨recipient_channel, data_type, data⟩, 1 + n1 + n2 + n3)

def ChannelExtendedData.dump (m : ChannelExtendedData) : List Nat :=
  u8Dump 95 ++ u32Dump m.recipient_channel ++ u32Dump m.data_type ++ bytesDump m.data

structure ChannelEof where
  recipient_channel : Nat
  deriving DecidableEq, Repr

def ChannelEof.parseCore (b : List Nat) : Except Error (ChannelEof × Nat) := do
  let s := b.drop 1
  let (recipient_channel, n1) ← u32Parse s
  .ok (⟨recipient_channel⟩, 1 + n1)

def ChannelEof.dump (m : ChannelEof) : List Nat :=
  u8Dump 96 ++ u32Dump m.recipient_channel

structure ChannelClose where
  recipient_channel : Nat
  deriving DecidableEq, Repr

def ChannelClose.parseCore (b : List Nat) : Except Error (ChannelClose × Nat) := do
  let s := b.drop 1
  let (recipient_channel, n1) ← u32Parse s
  .ok (⟨recipient_channel⟩, 1 + n1)

def ChannelClose.dump (m : ChannelClose) : List Nat :=
  u8Dump 97 ++ u32Dump m.recipient_channel

structure ChannelSuccess where
  recipient_channel : Nat
  deriving DecidableEq, Repr

def ChannelSuccess.parseCore (b : List Nat) : Except Error (ChannelSuccess × Nat) := do
  let s := b.drop 1
  let (recipient_channel, n1) ← u32Parse s
  .ok (⟨recipient_channel⟩, 1 + n1)

def ChannelSuccess.dump (m : ChannelSuccess) : List Nat :=
  u8Dump 99 ++ u32Dump m.recipient_channel

structure ChannelFailure where
  recipient_channel : Nat
  deriving DecidableEq, Repr

def ChannelFailure.parseCore (b : List Nat) : Except Error (ChannelFailure × Nat) := do
  let s := b.drop 1
  let (recipient_channel, n1) ← u32Parse s
  .ok (⟨recipient_channel⟩, 1 + n1)

def ChannelFailure.dump (m : ChannelFailure) : List Nat :=
  u8Dump 100 ++ u32Dump m.recipient_channel

structure ChannelWindowAdjust where
  recipient_channel : Nat
  bytes_to_add : Nat
  deriving DecidableEq, Repr

def ChannelWindowAdjust.parseCore (b : List Nat) :
    Except Error (ChannelWindowAdjust × Nat) := do
  let s := b.drop 1
  let (recipient_channel, n1) ← u32Parse s
  let (bytes_to_add, n2) ← u32Parse (s.drop n1)
  .ok (⟨recipient_channel, bytes_to_add⟩, 1 + n1 + n2)

def ChannelWindowAdjust.dump (m : ChannelWindowAdjust) : List Nat :=
  u8Dump 93 ++ u32Dump m.recipient_channel ++ u32Dump m.bytes_to_add

/-! ## The `UserauthRequest` variant (src/userauth.rs) -/

inductive UserauthRequest where
  | publicKey (username service_name algorithm : List Nat) (blob : Blob)
      (signature : Option Blob)
  | password (username service_name password : List Nat)
      (new_password : Option (List Nat))
  deriving DecidableEq, Repr

/-- `UserauthRequest::parse` after the message-type check
(src/userauth.rs lines 45-101): common prefix
(username, service_name, method_name, has_option), then the method-specific
tail; an unsupported method name fails (`ErrorKind::Unsupported`, the spec's
`Unimplemented`). -/
def UserauthRequest.parseCore (b : List Nat) : Except Error (UserauthRequest × Nat) := do
  let s := b.drop 1
  let (username, n1) ← strParse s
  let (service_name, n2) ← strParse (s.drop n1)
  let (method_name, n3) ← strParse ((s.drop n1).drop n2)
  let (has_option, n4) ← boolParse (((s.drop n1).drop n2).drop n3)
  let i := 1 + n1 + n2 + n3 + n4
  if method_name = ascii "publickey" then do
    let (algorithm, n5) ← strParse (b.drop i)
    let (blob, n6) ← Blob.parse ((b.drop i).drop n5)
    if has_option then do
      let (signature, n7) ← Blob.parse (((b.drop i).drop n5).drop n6)
      .ok (.publicKey username service_name algorithm blob (some signature),
          i + n5 + n6 + n7)
    else
      .ok (.publicKey username service_name algorithm blob none, i + n5 + n6)
  else if method_name = ascii "password" then do
    let (pw, n5) ← strParse (b.drop i)
    if has_option then do
      let (new_password, n6) ← strParse ((b.drop i).drop n5)
      .ok (.password username service_name pw (some new_password), i + n5 + n6)
    else
      .ok (.password username service_name pw none, i + n5)
  else
    .error .unimplemented

/-- `UserauthRequest::dump` (src/userauth.rs lines 103-144). -/
def UserauthRequest.dump : UserauthRequest → List Nat
  | .publicKey username service_name algorithm blob signature =>
    u8Dump 50 ++ strDump username ++ strDump service_name ++
      strDump (ascii "publickey") ++ boolDump signature.isSome ++
      strDump algorithm ++ blob.dump ++
      (match signature with
       | some sig => sig.dump
       | none => [])
  | .password username service_name pw new_password =>
    u8Dump 50 ++ strDump username ++ strDump service_name ++
      strDump (ascii "password") ++ boolDump new_password.isSome ++
      strDump pw ++
      (match new_password with
       | some np => strDump np
       | none => [])

/-! ## The `ChannelRequest` variant (src/channelrequest.rs) -/

inductive ChannelRequest where
  | exec (recipient_channel : Nat) (want_reply : Bool) (command : List Nat)
  | environmentVariable (recipient_channel : Nat) (want_reply : Bool)
      (name value : List Nat)
  | exitStatus (recipient_channel exit_status : Nat)
  | other (recipient_channel : Nat) (request_type : List Nat) (want_reply : Bool)
  deriving DecidableEq, Repr

/-- `ChannelRequest::parse` after the message-type check
(src/channelrequest.rs lines 31-87): common prefix
(recipient_channel, request_type, want_reply), then the request-specific
tail; an `exit-status` request with `want_reply = true` is rejected. -/
def ChannelRequest.parseCore (b : List Nat) : Except Error (ChannelRequest × Nat) := do
  let s := b.drop 1
  let (recipient_channel, n1) ← u32Parse s
  let (request_type, n2) ← strParse (s.drop n1)
  let (want_reply, n3) ← boolParse ((s.drop n1).drop n2)
  let i := 1 + n1 + n2 + n3
  if request_type = ascii "exec" then do
    let (command, n4) ← strParse (b.drop i)
    .ok (.exec recipient_channel want_reply command, i + n4)
  else if request_type = ascii "env" then do
    let (name, n4) ← strParse (b.drop i)
    let (value, n5) ← strParse ((b.drop i).drop n4)
    .ok (.environmentVariable recipient_channel want_reply name value, i + n4 + n5)
  else if request_type = ascii "exit-status" then
    if want_reply then .error .invalidData
    else do
      let (exit_status, n4) ← u32Parse (b.drop i)
      .ok (.exitStatus recipient_channel exit_status, i + n4)
  else
    .ok (.other recipient_channel request_type want_reply, i)

/-- `ChannelRequest::dump` (src/channelrequest.rs lines 89-131);
`ChannelRequest::Other` has no binary representation and fails. -/
def ChannelRequest.dump : ChannelRequest → Except Error (List Nat)
  | .exec recipient_channel want_reply command =>
    .ok (u8Dump 98 ++ u32Dump recipient_channel ++ strDump (ascii "exec") ++
      boolDump want_reply ++ strDump command)
  | .exitStatus recipient_channel exit_status =>
    .ok (u8Dump 98 ++ u32Dump recipient_channel ++ strDump (ascii "exit-status") ++
      boolDump false ++ u32Dump exit_status)
  | .environmentVariable recipient_channel want_reply name value =>
    .ok (u8Dump 98 ++ u32Dump recipient_channel ++ strDump (ascii "env") ++
      boolDump want_reply ++ strDump name ++ strDump value)
  | .other _ _ _ => .error .invalidData

/-! ## The `Message` dispatcher (src/messages.rs, `Message::parse`) -/

inductive Message where
  | disconnect (m : Disconnect)
  | unimplementedMsg (m : Unimplemented)
  | serviceRequest (m : ServiceRequest)
  | serviceAccept (m : ServiceAccept)
  | kexinit (m : Kexinit)
  | newkeys (m : Newkeys)
  | kexdhInit (m : KexdhInit)
  | kexdhReply (m : KexdhReply)
  | userauthRequest (m : UserauthRequest)
  | userauthFailure (m : UserauthFailure)
  | userauthSuccess (m : UserauthSuccess)
  | userauthPkOk (m : UserauthPkOk)
  | globalRequest (m : GlobalRequest)
  | channelOpen (m : ChannelOpen)
  | channelOpenConfirmation (m : ChannelOpenConfirmation)
  | channelOpenFailure (m : ChannelOpenFailure)
  | channelWindowAdjust (m : ChannelWindowAdjust)
  | channelData (m : ChannelData)
  | channelExtendedData (m : ChannelExtendedData)
  | channelEof (m : ChannelEof)
  | channelClose (m : ChannelClose)
  | channelRequest (m : ChannelRequest)
  | channelSuccess (m : ChannelSuccess)
  | channelFailure (m : ChannelFailure)
  deriving DecidableEq, Repr

/-- `Message::typ` (src/messages.rs lines 270-301), as the message-type byte.
The variants Rust's parse never constructs (`Ignore`, `Debug`,
`RequestSuccess`, `RequestFailure`) are omitted from the Lean inductive. -/
def Message.typ : Message → Nat
  | .disconnect _ => 1
  | .unimplementedMsg _ => 3
  | .serviceRequest _ => 5
  | .serviceAccept _ => 6
  | .kexinit _ => 20
  | .newkeys _ => 21
  | .kexdhInit _ => 30
  | .kexdhReply _ => 31
  | .userauthRequest _ => 50
  | .userauthFailure _ => 51
  | .userauthSuccess _ => 52
  | .userauthPkOk _ => 60
  | .globalRequest _ => 80
  | .channelOpen _ => 90
  | .channelOpenConfirmation _ => 91
  | .channelOpenFailure _ => 92
  | .channelWindowAdjust _ => 93
  | .channelData _ => 94
  | .channelExtendedData _ => 95
  | .channelEof _ => 96
  | .channelClose _ => 97
  | .channelRequest _ => 98
  | .channelSuccess _ => 99
  | .channelFailure _ => 100

/-- `Message::parse` (src/messages.rs lines 197-231): dispatch on the first
byte.  Unknown bytes fail with `UnknownMessageType`; known bytes without a
dispatch arm (`Ignore` 2, `Debug` 4, `UserauthBanner` 53, `RequestSuccess` 81,
`RequestFailure` 82) fail with `Unimplemented`.  Each arm runs the struct's
field parse (whose own type check trivially succeeds in Rust, as dispatch
guarantees the matching tag). -/
def Message.parse (b : List Nat) : Except Error (Message × Nat) :=
  match b.head? with
  | none => .error .truncatedInput
  | some typ =>
    if messageTypeKnown typ then
      match typ with
      | 1 => (Disconnect.parseCore b).map (fun p => (.disconnect p.1, p.2))
      | 3 => (Unimplemented.parseCore b).map (fun p => (.unimplementedMsg p.1, p.2))
      | 5 => (ServiceRequest.parseCore b).map (fun p => (.serviceRequest p.1, p.2))
      | 6 => (ServiceAccept.parseCore b).map (fun p => (.serviceAccept p.1, p.2))
      | 20 => (Kexinit.parseCore b).map (fun p => (.kexinit p.1, p.2))
      | 21 => (Newkeys.parseCore b).map (fun p => (.newkeys p.1, p.2))
      | 30 => (KexdhInit.parseCore b).map (fun p => (.kexdhInit p.1, p.2))
      | 31 => (KexdhReply.parseCore b).map (fun p => (.kexdhReply p.1, p.2))
      | 50 => (UserauthRequest.parseCore b).map (fun p => (.userauthRequest p.1, p.2))
      | 51 => (UserauthFailure.parseCore b).map (fun p => (.userauthFailure p.1, p.2))
      | 52 => (UserauthSuccess.parseCore b).map (fun p => (.userauthSuccess p.1, p.2))
      | 60 => (UserauthPkOk.parseCore b).map (fun p => (.userauthPkOk p.1, p.2))
      | 80 => (GlobalRequest.parseCore b).map (fun p => (.globalRequest p.1, p.2))
      | 90 => (ChannelOpen.parseCore b).map (fun p => (.channelOpen p.1, p.2))
      | 91 => (ChannelOpenConfirmation.parseCore b).map
          (fun p => (.channelOpenConfirmation p.1, p.2))
      | 92 => (ChannelOpenFailure.parseCore b).map (fun p => (.channelOpenFailure p.1, p.2))
      | 93 => (ChannelWindowAdjust.parseCore b).map (fun p => (.channelWindowAdjust p.1, p.2))
      | 94 => (ChannelData.parseCore b).map (fun p => (.channelData p.1, p.2))
      | 95 => (ChannelExtendedData.parseCore b).map (fun p => (.channelExtendedData p.1, p.2))
      | 96 => (ChannelEof.parseCore b).map (fun p => (.channelEof p.1, p.2))
      | 97 => (ChannelClose.parseCore b).map (fun p => (.channelClose p.1, p.2))
      | 98 => (ChannelRequest.parseCore b).map (fun p => (.channelRequest p.1, p.2))
      | 99 => (ChannelSuccess.parseCore b).map (fun p => (.channelSuccess p.1, p.2))
      | 100 => (ChannelFailure.parseCore b).map (fun p => (.channelFailure p.1, p.2))
      | _ => .error .unimplemented
    else .error (.unknownMessageType typ)

/-- `check_msg_type!` (src/messages.rs lines 12-22): read the type byte, fail
on unknown bytes, succeed on the expected byte; on a mismatch, parse the
message (propagating any parse error) and fail with
`UnexpectedMessageType`. -/
def checkMsgType (expected : Nat) (b : List Nat) : Except Error Unit := do
  let (raw, _) ← u8Parse b
  if messageTypeKnown raw then
    if raw = expected then .ok ()
    else
      match Message.parse b with
      | .error e => .error e
      | .ok _ => .error (.unexpectedMessageType raw)
  else .error (.unknownMessageType raw)

/-! ### Full parses: message-type check, then the fields. -/

def Disconnect.parse (b : List Nat) : Except Error (Disconnect × Nat) := do
  checkMsgType 1 b
  Disconnect.parseCore b

def Unimplemented.parse (b : List Nat) : Except Error (Unimplemented × Nat) := do
  checkMsgType 3 b
  Unimplemented.parseCore b

def ServiceRequest.parse (b : List Nat) : Except Error (ServiceRequest × Nat) := do
  checkMsgType 5 b
  ServiceRequest.parseCore b

def ServiceAccept.parse (b : List Nat) : Except Error (ServiceAccept × Nat) := do
  checkMsgType 6 b
  ServiceAccept.parseCore b

def Kexinit.parse (b : List Nat) : Except Error (Kexinit × Nat) := do
  checkMsgType 20 b
  Kexinit.parseCore b

def Newkeys.parse (b : List Nat) : Except Error (Newkeys × Nat) := do
  checkMsgType 21 b
  Newkeys.parseCore b

def KexdhInit.parse (b : List Nat) : Except Error (KexdhInit × Nat) := do
  checkMsgType 30 b
  KexdhInit.parseCore b

def KexdhReply.parse (b : List Nat) : Except Error (KexdhReply × Nat) := do
  checkMsgType 31 b
  KexdhReply.parseCore b

def UserauthRequest.parse (b : List Nat) : Except Error (UserauthRequest × Nat) := do
  checkMsgType 50 b
  UserauthRequest.parseCore b

def UserauthFailure.parse (b : List Nat) : Except Error (UserauthFailure × Nat) := do
  checkMsgType 51 b
  UserauthFailure.parseCore b

def UserauthSuccess.parse (b : List Nat) : Except Error (UserauthSuccess × Nat) := do
  checkMsgType 52 b
  UserauthSuccess.parseCore b

def UserauthPkOk.parse (b : List Nat) : Except Error (UserauthPkOk × Nat) := do
  checkMsgType 60 b
  UserauthPkOk.parseCore b

def GlobalRequest.parse (b : List Nat) : Except Error (GlobalRequest × Nat) := do
  checkMsgType 80 b
  GlobalRequest.parseCore b

def ChannelOpen.parse (b : List Nat) : Except Error (ChannelOpen × Nat) := do
  checkMsgType 90 b
  ChannelOpen.parseCore b

def ChannelOpenConfirmation.parse (b : List Nat) :
    Except Error (ChannelOpenConfirmation × Nat) := do
  checkMsgType 91 b
  ChannelOpenConfirmation.parseCore b

def ChannelOpenFailure.parse (b : List Nat) : Except Error (ChannelOpenFailure × Nat) := do
  checkMsgType 92 b
  ChannelOpenFailure.parseCore b

def ChannelWindowAdjust.parse (b : List Nat) : Except Error (ChannelWindowAdjust × Nat) := do
  checkMsgType 93 b
  ChannelWindowAdjust.parseCore b

def ChannelData.parse (b : List Nat) : Except Error (ChannelData × Nat) := do
  checkMsgType 94 b
  ChannelData.parseCore b

def ChannelExtendedData.parse (b : List Nat) :
    Except Error (ChannelExtendedData × Nat) := do
  checkMsgType 95 b
  ChannelExtendedData.parseCore b

def ChannelEof.parse (b : List Nat) : Except Error (ChannelEof × Nat) := do
  checkMsgType 96 b
  ChannelEof.parseCore b

def ChannelClose.parse (b : List Nat) : Except Error (ChannelClose × Nat) := do
  checkMsgType 97 b
  ChannelClose.parseCore b

def ChannelRequest.parse (b : List Nat) : Except Error (ChannelRequest × Nat) := do
  checkMsgType 98 b
  ChannelRequest.parseCore b

def ChannelSuccess.parse (b : List Nat) : Except Error (ChannelSuccess × Nat) := do
  checkMsgType 99 b
  ChannelSuccess.parseCore b

def ChannelFailure.parse (b : List Nat) : Except Error (ChannelFailure × Nat) := do
  checkMsgType 100 b
  ChannelFailure.parseCore b

/-! ## Round-trip lemmas, record by record -/

theorem checkMsgType_self (e : Nat) (rest : List Nat) (h : messageTypeKnown e = true) :
    checkMsgType e (e :: rest) = .ok () := by
  simp [checkMsgType, u8Parse, h]

theorem reasonCodeParse_reasonCodeDump (r : Nat) (rest : List Nat)
    (h : 1 ≤ r ∧ r ≤ 15) :
    reasonCodeParse (reasonCodeDump r ++ rest) = .ok (r, (reasonCodeDump r).length) := by
  obtain ⟨h1, h2⟩ := h
  simp [reasonCodeParse, reasonCodeDump, u8Dump, u8Parse, h1, h2]

theorem reasonCodeDump_length (r : Nat) : (reasonCodeDump r).length = 1 := rfl

theorem Blob_roundtrip (x : Blob) (rest : List Nat)
    (h1 : x.blob_len < 2 ^ 32)
    (h2 : x.header.length < 2 ^ 32) (h3 : utf8Valid x.header = true)
    (h4 : x.content.length < 2 ^ 32) :
    Blob.parse (Blob.dump x ++ rest) = .ok (x, (Blob.dump x).length) := by
  obtain ⟨bl, hd, ct⟩ := x
  simp only at h1 h2 h3 h4
  simp only [Blob.parse, Blob.dump, List.append_assoc, ebind_ok,
    u32Parse_u32Dump _ _ h1, List.drop_left, strParse_strDump _ _ h2 h3,
    bytesParse_bytesDump _ _ h4]
  simp
  omega

theorem Blob_dump_length (x : Blob) :
    (Blob.dump x).length = 12 + x.header.length + x.content.length := by
  simp [Blob.dump]
  omega

theorem Disconnect_roundtrip (m : Disconnect) (rest : List Nat)
    (h1 : 1 ≤ m.reason_code ∧ m.reason_code ≤ 15)
    (h2 : m.description.length < 2 ^ 32) (h3 : utf8Valid m.description = true)
    (h4 : m.language_tag.length < 2 ^ 32) (h5 : utf8Valid m.language_tag = true) :
    Disconnect.parse (Disconnect.dump m ++ rest) = .ok (m, (Disconnect.dump m).length) := by
  obtain ⟨rc, de, lt⟩ := m
  simp only at h1 h2 h3 h4 h5
  simp only [Disconnect.dump, Disconnect.parse, u8Dump, List.cons_append,
    List.nil_append, List.append_assoc]
  rw [checkMsgType_self _ _ (by decide)]
  simp only [Disconnect.parseCore, ebind_ok, drop_one_cons,
    reasonCodeParse_reasonCodeDump _ _ h1, List.drop_left,
    strParse_strDump _ _ h2 h3, strParse_strDump _ _ h4 h5]
  simp [reasonCodeDump]
  omega

theorem Unimplemented_roundtrip (m : Unimplemented) (rest : List Nat)
    (h1 : m.packet_number < 2 ^ 32) :
    Unimplemented.parse (Unimplemented.dump m ++ rest) =
      .ok (m, (Unimplemented.dump m).length) := by
  obtain ⟨pn⟩ := m
  simp only at h1
  simp only [Unimplemented.dump, Unimplemented.parse, u8Dump, List.cons_append,
    List.nil_append, List.append_assoc]
  rw [checkMsgType_self _ _ (by decide)]
  simp only [Unimplemented.parseCore, ebind_ok, drop_one_cons,
    u32Parse_u32Dump _ _ h1]
  simp

theorem ServiceRequest_roundtrip (m : ServiceRequest) (rest : List Nat)
    (h1 : m.service_name.length < 2 ^ 32) (h2 : utf8Valid m.service_name = true) :
    ServiceRequest.parse (ServiceRequest.dump m ++ rest) =
      .ok (m, (ServiceRequest.dump m).length) := by
  obtain ⟨sn⟩ := m
  simp only at h1 h2
  simp only [ServiceRequest.dump, ServiceRequest.parse, u8Dump, List.cons_append,
    List.nil_append, List.append_assoc]
  rw [checkMsgType_self _ _ (by decide)]
  simp only [ServiceRequest.parseCore, ebind_ok, drop_one_cons,
    strParse_strDump _ _ h1 h2]
  simp
  omega

theorem ServiceAccept_roundtrip (m : ServiceAccept) (rest : List Nat)
    (h1 : m.service_name.length < 2 ^ 32) (h2 : utf8Valid m.service_name = true) :
    ServiceAccept.parse (ServiceAccept.dump m ++ rest) =
      .ok (m, (ServiceAccept.dump m).length) := by
  obtain ⟨sn⟩ := m
  simp only at h1 h2
  simp only [ServiceAccept.dump, ServiceAccept.parse, u8Dump, List.cons_append,
    List.nil_append, List.append_assoc]
  rw [checkMsgType_self _ _ (by decide)]
  simp only [ServiceAccept.parseCore, ebind_ok, drop_one_cons,
    strParse_strDump _ _ h1 h2]
  simp
  omega

theorem Newkeys_roundtrip (m : Newkeys) (rest : List Nat) :
    Newkeys.parse (Newkeys.dump m ++ rest) = .ok (m, (Newkeys.dump m).length) := rfl

theorem UserauthSuccess_roundtrip (m : UserauthSuccess) (rest : List Nat) :
    UserauthSuccess.parse (UserauthSuccess.dump m ++ rest) =
      .ok (m, (UserauthSuccess.dump m).length) := rfl

theorem arr16Dump_drop (l rest : List Nat) (h : l.length = 16) :
    (arr16Dump l ++ rest).drop 16 = rest := by
  rw [show (16 : Nat) = (arr16Dump l).length by simp [arr16Dump, h], List.drop_left]

theorem KexdhInit_roundtrip (m : KexdhInit) (rest : List Nat)
    (h1 : m.client_ephemeral_pubkey.length < 2 ^ 32) :
    KexdhInit.parse (KexdhInit.dump m ++ rest) = .ok (m, (KexdhInit.dump m).length) := by
  obtain ⟨ep⟩ := m
  simp only at h1
  simp only [KexdhInit.dump, KexdhInit.parse, u8Dump, List.cons_append,
    List.nil_append, List.append_assoc]
  rw [checkMsgType_self _ _ (by decide)]
  simp only [KexdhInit.parseCore, ebind_ok, drop_one_cons,
    bytesParse_bytesDump _ _ h1]
  simp
  omega

theorem KexdhReply_roundtrip (m : KexdhReply) (rest : List Nat)
    (h1 : m.server_public_host_key.blob_len < 2 ^ 32)
    (h2 : m.server_public_host_key.header.length < 2 ^ 32)
    (h3 : utf8Valid m.server_public_host_key.header = true)
    (h4 : m.server_public_host_key.content.length < 2 ^ 32)
    (h5 : m.server_ephemeral_pubkey.length < 2 ^ 32)
    (h6 : m.exchange_hash_signature.blob_len < 2 ^ 32)
    (h7 : m.exchange_hash_signature.header.length < 2 ^ 32)
    (h8 : utf8Valid m.exchange_hash_signature.header = true)
    (h9 : m.exchange_hash_signature.content.length < 2 ^ 32) :
    KexdhReply.parse (KexdhReply.dump m ++ rest) = .ok (m, (KexdhReply.dump m).length) := by
  obtain ⟨hk, ep, sig⟩ := m
  simp only at h1 h2 h3 h4 h5 h6 h7 h8 h9
  simp only [KexdhReply.dump, KexdhReply.parse, u8Dump, List.cons_append,
    List.nil_append, List.append_assoc]
  rw [checkMsgType_self _ _ (by decide)]
  simp only [KexdhReply.parseCore, ebind_ok, drop_one_cons, List.drop_left,
    Blob_roundtrip hk _ h1 h2 h3 h4, Blob_roundtrip sig _ h6 h7 h8 h9,
    bytesParse_bytesDump _ _ h5]
  simp [Blob.dump]
  omega

theorem UserauthFailure_roundtrip (m : UserauthFailure) (rest : List Nat)
    (h1 : m.allowed_auth.length < 2 ^ 32) (h2 : utf8Valid m.allowed_auth = true) :
    UserauthFailure.parse (UserauthFailure.dump m ++ rest) =
      .ok (m, (UserauthFailure.dump m).length) := by
  obtain ⟨aa, ps⟩ := m
  simp only at h1 h2
  simp only [UserauthFailure.dump, UserauthFailure.parse, u8Dump, List.cons_append,
    List.nil_append, List.append_assoc]
  rw [checkMsgType_self _ _ (by decide)]
  simp only [UserauthFailure.parseCore, ebind_ok, drop_one_cons, List.drop_left,
    strParse_strDump _ _ h1 h2, boolParse_boolDump]
  simp
  omega

theorem UserauthPkOk_roundtrip (m : UserauthPkOk) (rest : List Nat)
    (h1 : m.algorithm.length < 2 ^ 32) (h2 : utf8Valid m.algorithm = true)
    (h3 : m.blob.blob_len < 2 ^ 32)
    (h4 : m.blob.header.length < 2 ^ 32) (h5 : utf8Valid m.blob.header = true)
    (h6 : m.blob.content.length < 2 ^ 32) :
    UserauthPkOk.parse (UserauthPkOk.dump m ++ rest) =
      .ok (m, (UserauthPkOk.dump m).length) := by
  obtain ⟨alg, bl⟩ := m
  simp only at h1 h2 h3 h4 h5 h6
  simp only [UserauthPkOk.dump, UserauthPkOk.parse, u8Dump, List.cons_append,
    List.nil_append, List.append_assoc]
  rw [checkMsgType_self _ _ (by decide)]
  simp only [UserauthPkOk.parseCore, ebind_ok, drop_one_cons, List.drop_left,
    strParse_strDump _ _ h1 h2, Blob_roundtrip bl _ h3 h4 h5 h6]
  simp [Blob.dump]
  omega

theorem GlobalRequest_roundtrip (m : GlobalRequest) (rest : List Nat)
    (h1 : m.request_name.length < 2 ^ 32) (h2 : utf8Valid m.request_name = true) :
    GlobalRequest.parse (GlobalRequest.dump m ++ rest) =
      .ok (m, (GlobalRequest.dump m).length) := by
  obtain ⟨rn, wr⟩ := m
  simp only at h1 h2
  simp only [GlobalRequest.dump, GlobalRequest.parse, u8Dump, List.cons_append,
    List.nil_append, List.append_assoc]
  rw [checkMsgType_self _ _ (by decide)]
  simp only [GlobalRequest.parseCore, ebind_ok, drop_one_cons, List.drop_left,
    strParse_strDump _ _ h1 h2, boolParse_boolDump]
  simp
  omega

theorem Kexinit_roundtrip (m : Kexinit) (rest : List Nat)
    (hc : m.cookie.length = 16)
    (h1a : m.kex_algorithms.length < 2 ^ 32)
    (h1b : utf8Valid m.kex_algorithms = true)
    (h2a : m.server_host_key_algorithms.length < 2 ^ 32)
    (h2b : utf8Valid m.server_host_key_algorithms = true)
    (h3a : m.encryption_algorithms_client_to_server.length < 2 ^ 32)
    (h3b : utf8Valid m.encryption_algorithms_client_to_server = true)
    (h4a : m.encryption_algorithms_server_to_client.length < 2 ^ 32)
    (h4b : utf8Valid m.encryption_algorithms_server_to_client = true)
    (h5a : m.mac_algorithms_client_to_server.length < 2 ^ 32)
    (h5b : utf8Valid m.mac_algorithms_client_to_server = true)
    (h6a : m.mac_algorithms_server_to_client.length < 2 ^ 32)
    (h6b : utf8Valid m.mac_algorithms_server_to_client = true)
    (h7a : m.compression_algorithms_client_to_server.length < 2 ^ 32)
    (h7b : utf8Valid m.compression_algorithms_client_to_server = true)
    (h8a : m.compression_algorithms_server_to_client.length < 2 ^ 32)
    (h8b : utf8Valid m.compression_algorithms_server_to_client = true)
    (h9a : m.languages_client_to_server.length < 2 ^ 32)
    (h9b : utf8Valid m.languages_client_to_server = true)
    (h10a : m.languages_server_to_client.length < 2 ^ 32)
    (h10b : utf8Valid m.languages_server_to_client = true)
    (hn : m.nop < 2 ^ 32) :
    Kexinit.parse (Kexinit.dump m ++ rest) = .ok (m, (Kexinit.dump m).length) := by
  obtain ⟨ck, a1, a2, a3, a4, a5, a6, a7, a8, a9, a10, fk, np⟩ := m
  simp only at hc h1a h1b h2a h2b h3a h3b h4a h4b h5a h5b h6a h6b
  simp only at h7a h7b h8a h8b h9a h9b h10a h10b hn
  simp only [Kexinit.dump, Kexinit.parse, u8Dump, List.cons_append,
    List.nil_append, List.append_assoc]
  rw [checkMsgType_self _ _ (by decide)]
  simp only [Kexinit.parseCore, ebind_ok, drop_one_cons, List.drop_left,
    arr16Parse_arr16Dump _ _ hc, arr16Dump_drop _ _ hc,
    strParse_strDump _ _ h1a h1b, strParse_strDump _ _ h2a h2b,
    strParse_strDump _ _ h3a h3b, strParse_strDump _ _ h4a h4b,
    strParse_strDump _ _ h5a h5b, strParse_strDump _ _ h6a h6b,
    strParse_strDump _ _ h7a h7b, strParse_strDump _ _ h8a h8b,
    strParse_strDump _ _ h9a h9b, strParse_strDump _ _ h10a h10b,
    boolParse_boolDump, u32Parse_u32Dump _ _ hn]
  simp [arr16Dump, hc]
  omega

theorem ChannelOpen_roundtrip (m : ChannelOpen) (rest : List Nat)
    (h1 : m.channel_type.length < 2 ^ 32) (h2 : utf8Valid m.channel_type = true)
    (h3 : m.client_channel < 2 ^ 32)
    (h4 : m.client_initial_window_size < 2 ^ 32)
    (h5 : m.client_max_packet_size < 2 ^ 32) :
    ChannelOpen.parse (ChannelOpen.dump m ++ rest) = .ok (m, (ChannelOpen.dump m).length) := by
  obtain ⟨ct, cc, iw, mp⟩ := m
  simp only at h1 h2 h3 h4 h5
  simp only [ChannelOpen.dump, ChannelOpen.parse, u8Dump, List.cons_append,
    List.nil_append, List.append_assoc]
  rw [checkMsgType_self _ _ (by decide)]
  simp only [ChannelOpen.parseCore, ebind_ok, drop_one_cons, List.drop_left,
    strParse_strDump _ _ h1 h2, u32Parse_u32Dump _ _ h3, u32Parse_u32Dump _ _ h4,
    u32Parse_u32Dump _ _ h5]
  simp
  omega

theorem ChannelOpenConfirmation_roundtrip (m : ChannelOpenConfirmation) (rest : List Nat)
    (h1 : m.client_channel < 2 ^ 32) (h2 : m.server_channel < 2 ^ 32)
    (h3 : m.server_initial_window_size < 2 ^ 32)
    (h4 : m.server_max_packet_size < 2 ^ 32) :
    ChannelOpenConfirmation.parse (ChannelOpenConfirmation.dump m ++ rest) =
      .ok (m, (ChannelOpenConfirmation.dump m).length) := by
  obtain ⟨cc, sc, iw, mp⟩ := m
  simp only at h1 h2 h3 h4
  simp only [ChannelOpenConfirmation.dump, ChannelOpenConfirmation.parse, u8Dump,
    List.cons_append, List.nil_append, List.append_assoc]
  rw [checkMsgType_self _ _ (by decide)]
  simp only [ChannelOpenConfirmation.parseCore, ebind_ok, drop_one_cons, List.drop_left,
    u32Parse_u32Dump _ _ h1, u32Parse_u32Dump _ _ h2, u32Parse_u32Dump _ _ h3,
    u32Parse_u32Dump _ _ h4]
  simp

theorem ChannelOpenFailure_roundtrip (m : ChannelOpenFailure) (rest : List Nat)
    (h1 : m.client_channel < 2 ^ 32) (h2 : m.reason_code < 2 ^ 32)
    (h3 : m.description.length < 2 ^ 32) (h4 : utf8Valid m.description = true)
    (h5 : m.language_tag.length < 2 ^ 32) (h6 : utf8Valid m.language_tag = true) :
    ChannelOpenFailure.parse (ChannelOpenFailure.dump m ++ rest) =
      .ok (m, (ChannelOpenFailure.dump m).length) := by
  obtain ⟨cc, rc, de, lt⟩ := m
  simp only at h1 h2 h3 h4 h5 h6
  simp only [ChannelOpenFailure.dump, ChannelOpenFailure.parse, u8Dump,
    List.cons_append, List.nil_append, List.append_assoc]
  rw [checkMsgType_self _ _ (by decide)]
  simp only [ChannelOpenFailure.parseCore, ebind_ok, drop_one_cons, List.drop_left,
    u32Parse_u32Dump _ _ h1, u32Parse_u32Dump _ _ h2,
    strParse_strDump _ _ h3 h4, strParse_strDump _ _ h5 h6]
  simp
  omega

theorem ChannelData_roundtrip (m : ChannelData) (rest : List Nat)
    (h1 : m.recipient_channel < 2 ^ 32) (h2 : m.data.length < 2 ^ 32) :
    ChannelData.parse (ChannelData.dump m ++ rest) = .ok (m, (ChannelData.dump m).length) := by
  obtain ⟨rc, data⟩ := m
  simp only at h1 h2
  simp only [ChannelData.dump, ChannelData.parse, u8Dump, List.cons_append,
    List.nil_append, List.append_assoc]
  rw [checkMsgType_self _ _ (by decide)]
  simp only [ChannelData.parseCore, ebind_ok, drop_one_cons, List.drop_left,
    u32Parse_u32Dump _ _ h1, bytesParse_bytesDump _ _ h2]
  simp
  omega

theorem ChannelExtendedData_roundtrip (m : ChannelExtendedData) (rest : List Nat)
    (h1 : m.recipient_channel < 2 ^ 32) (h2 : m.data_type < 2 ^ 32)
    (h3 : m.data.length < 2 ^ 32) :
    ChannelExtendedData.parse (ChannelExtendedData.dump m ++ rest) =
      .ok (m, (ChannelExtendedData.dump m).length) := by
  obtain ⟨rc, dt, data⟩ := m
  simp only at h1 h2 h3
  simp only [ChannelExtendedData.dump, ChannelExtendedData.parse, u8Dump,
    List.cons_append, List.nil_append, List.append_assoc]
  rw [checkMsgType_self _ _ (by decide)]
  simp only [ChannelExtendedData.parseCore, ebind_ok, drop_one_cons, List.drop_left,
    u32Parse_u32Dump _ _ h1, u32Parse_u32Dump _ _ h2, bytesParse_bytesDump _ _ h3]
  simp
  omega

theorem ChannelEof_roundtrip (m : ChannelEof) (rest : List Nat)
    (h1 : m.recipient_channel < 2 ^ 32) :
    ChannelEof.parse (ChannelEof.dump m ++ rest) = .ok (m, (ChannelEof.dump m).length) := by
  obtain ⟨rc⟩ := m
  simp only at h1
  simp only [ChannelEof.dump, ChannelEof.parse, u8Dump, List.cons_append,
    List.nil_append, List.append_assoc]
  rw [checkMsgType_self _ _ (by decide)]
  simp only [ChannelEof.parseCore, ebind_ok, drop_one_cons, u32Parse_u32Dump _ _ h1]
  simp

theorem ChannelClose_roundtrip (m : ChannelClose) (rest : List Nat)
    (h1 : m.recipient_channel < 2 ^ 32) :
    ChannelClose.parse (ChannelClose.dump m ++ rest) = .ok (m, (ChannelClose.dump m).length) := by
  obtain ⟨rc⟩ := m
  simp only at h1
  simp only [ChannelClose.dump, ChannelClose.parse, u8Dump, List.cons_append,
    List.nil_append, List.append_assoc]
  rw [checkMsgType_self _ _ (by decide)]
  simp only [ChannelClose.parseCore, ebind_ok, drop_one_cons, u32Parse_u32Dump _ _ h1]
  simp

theorem ChannelSuccess_roundtrip (m : ChannelSuccess) (rest : List Nat)
    (h1 : m.recipient_channel < 2 ^ 32) :
    ChannelSuccess.parse (ChannelSuccess.dump m ++ rest) =
      .ok (m, (ChannelSuccess.dump m).length) := by
  obtain ⟨rc⟩ := m
  simp only at h1
  simp only [ChannelSuccess.dump, ChannelSuccess.parse, u8Dump, List.cons_append,
    List.nil_append, List.append_assoc]
  rw [checkMsgType_self _ _ (by decide)]
  simp only [ChannelSuccess.parseCore, ebind_ok, drop_one_cons, u32Parse_u32Dump _ _ h1]
  simp

theorem ChannelFailure_roundtrip (m : ChannelFailure) (rest : List Nat)
    (h1 : m.recipient_channel < 2 ^ 32) :
    ChannelFailure.parse (ChannelFailure.dump m ++ rest) =
      .ok (m, (ChannelFailure.dump m).length) := by
  obtain ⟨rc⟩ := m
  simp only at h1
  simp only [ChannelFailure.dump, ChannelFailure.parse, u8Dump, List.cons_append,
    List.nil_append, List.append_assoc]
  rw [checkMsgType_self _ _ (by decide)]
  simp only [ChannelFailure.parseCore, ebind_ok, drop_one_cons, u32Parse_u32Dump _ _ h1]
  simp

theorem ChannelWindowAdjust_roundtrip (m : ChannelWindowAdjust) (rest : List Nat)
    (h1 : m.recipient_channel < 2 ^ 32) (h2 : m.bytes_to_add < 2 ^ 32) :
    ChannelWindowAdjust.parse (ChannelWindowAdjust.dump m ++ rest) =
      .ok (m, (ChannelWindowAdjust.dump m).length) := by
  obtain ⟨rc, ba⟩ := m
  simp only at h1 h2
  simp only [ChannelWindowAdjust.dump, ChannelWindowAdjust.parse, u8Dump,
    List.cons_append, List.nil_append, List.append_assoc]
  rw [checkMsgType_self _ _ (by decide)]
  simp only [ChannelWindowAdjust.parseCore, ebind_ok, drop_one_cons, List.drop_left,
    u32Parse_u32Dump _ _ h1, u32Parse_u32Dump _ _ h2]
  simp

/-! ## The record set of spec §4.B

`TaggedRecord` ranges over every struct generated by `parse_dump_struct!`
in src/messages.rs (the tagged message records) together with the `Blob`
helper.  `recordWF` states the range invariants Rust's field types enforce
(`u32` fields below `2^32`, a 16-byte cookie, UTF-8 `&str` payloads, slice
lengths below `2^32`); `recordRoundTrip` is the parse/dump round-trip law
for the record. -/

inductive TaggedRecord where
  | disconnect (m : Disconnect)
  | unimplementedMsg (m : Unimplemented)
  | serviceRequest (m : ServiceRequest)
  | serviceAccept (m : ServiceAccept)
  | kexinit (m : Kexinit)
  | newkeys (m : Newkeys)
  | kexdhInit (m : KexdhInit)
  | kexdhReply (m : KexdhReply)
  | userauthFailure (m : UserauthFailure)
  | userauthSuccess (m : UserauthSuccess)
  | userauthPkOk (m : UserauthPkOk)
  | globalRequest (m : GlobalRequest)
  | channelOpen (m : ChannelOpen)
  | channelOpenConfirmation (m : ChannelOpenConfirmation)
  | channelOpenFailure (m : ChannelOpenFailure)
  | channelWindowAdjust (m : ChannelWindowAdjust)
  | channelData (m : ChannelData)
  | channelExtendedData (m : ChannelExtendedData)
  | channelEof (m : ChannelEof)
  | channelClose (m : ChannelClose)
  | channelSuccess (m : ChannelSuccess)
  | channelFailure (m : ChannelFailure)
  | blob (m : Blob)
  deriving DecidableEq, Repr

def blobWF (x : Blob) : Bool :=
  x.blob_len < 2 ^ 32 && x.header.length < 2 ^ 32 && utf8Valid x.header &&
    x.content.length < 2 ^ 32

def recordWF : TaggedRecord → Bool
  | .disconnect m =>
    (1 ≤ m.reason_code && m.reason_code ≤ 15) &&
      (m.description.length < 2 ^ 32 && utf8Valid m.description) &&
      (m.language_tag.length < 2 ^ 32 && utf8Valid m.language_tag)
  | .unimplementedMsg m => m.packet_number < 2 ^ 32
  | .serviceRequest m => m.service_name.length < 2 ^ 32 && utf8Valid m.service_name
  | .serviceAccept m => m.service_name.length < 2 ^ 32 && utf8Valid m.service_name
  | .kexinit m =>
    m.cookie.length = 16 &&
      (m.kex_algorithms.length < 2 ^ 32 && utf8Valid m.kex_algorithms) &&
      (m.server_host_key_algorithms.length < 2 ^ 32 &&
        utf8Valid m.server_host_key_algorithms) &&
      (m.encryption_algorithms_client_to_server.length < 2 ^ 32 &&
        utf8Valid m.encryption_algorithms_client_to_server) &&
      (m.encryption_algorithms_server_to_client.length < 2 ^ 32 &&
        utf8Valid m.encryption_algorithms_server_to_client) &&
      (m.mac_algorithms_client_to_server.length < 2 ^ 32 &&
        utf8Valid m.mac_algorithms_client_to_server) &&
      (m.mac_algorithms_server_to_client.length < 2 ^ 32 &&
        utf8Valid m.mac_algorithms_server_to_client) &&
      (m.compression_algorithms_client_to_server.length < 2 ^ 32 &&
        utf8Valid m.compression_algorithms_client_to_server) &&
      (m.compression_algorithms_server_to_client.length < 2 ^ 32 &&
        utf8Valid m.compression_algorithms_server_to_client) &&
      (m.languages_client_to_server.length < 2 ^ 32 &&
        utf8Valid m.languages_client_to_server) &&
      (m.languages_server_to_client.length < 2 ^ 32 &&
        utf8Valid m.languages_server_to_client) &&
      m.nop < 2 ^ 32
  | .newkeys _ => true
  | .kexdhInit m => m.client_ephemeral_pubkey.length < 2 ^ 32
  | .kexdhReply m =>
    blobWF m.server_public_host_key && m.server_ephemeral_pubkey.length < 2 ^ 32 &&
      blobWF m.exchange_hash_signature
  | .userauthFailure m => m.allowed_auth.length < 2 ^ 32 && utf8Valid m.allowed_auth
  | .userauthSuccess _ => true
  | .userauthPkOk m =>
    (m.algorithm.length < 2 ^ 32 && utf8Valid m.algorithm) && blobWF m.blob
  | .globalRequest m => m.request_name.length < 2 ^ 32 && utf8Valid m.request_name
  | .channelOpen m =>
    (m.channel_type.length < 2 ^ 32 && utf8Valid m.channel_type) &&
      m.client_channel < 2 ^ 32 && m.client_initial_window_size < 2 ^ 32 &&
      m.client_max_packet_size < 2 ^ 32
  | .channelOpenConfirmation m =>
    m.client_channel < 2 ^ 32 && m.server_channel < 2 ^ 32 &&
      m.server_initial_window_size < 2 ^ 32 && m.server_max_packet_size < 2 ^ 32
  | .channelOpenFailure m =>
    m.client_channel < 2 ^ 32 && m.reason_code < 2 ^ 32 &&
      (m.description.length < 2 ^ 32 && utf8Valid m.description) &&
      (m.language_tag.length < 2 ^ 32 && utf8Valid m.language_tag)
  | .channelWindowAdjust m =>
    m.recipient_channel < 2 ^ 32 && m.bytes_to_add < 2 ^ 32
  | .channelData m => m.recipient_channel < 2 ^ 32 && m.data.length < 2 ^ 32
  | .channelExtendedData m =>
    m.recipient_channel < 2 ^ 32 && m.data_type < 2 ^ 32 && m.data.length < 2 ^ 32
  | .channelEof m => m.recipient_channel < 2 ^ 32
  | .channelClose m => m.recipient_channel < 2 ^ 32
  | .channelSuccess m => m.recipient_channel < 2 ^ 32
  | .channelFailure m => m.recipient_channel < 2 ^ 32
  | .blob m => blobWF m

def recordRoundTrip : TaggedRecord → Prop
  | .disconnect m => Disconnect.parse (Disconnect.dump m) = .ok (m, (Disconnect.dump m).length)
  | .unimplementedMsg m =>
    Unimplemented.parse (Unimplemented.dump m) = .ok (m, (Unimplemented.dump m).length)
  | .serviceRequest m =>
    ServiceRequest.parse (ServiceRequest.dump m) = .ok (m, (ServiceRequest.dump m).length)
  | .serviceAccept m =>
    ServiceAccept.parse (ServiceAccept.dump m) = .ok (m, (ServiceAccept.dump m).length)
  | .kexinit m => Kexinit.parse (Kexinit.dump m) = .ok (m, (Kexinit.dump m).length)
  | .newkeys m => Newkeys.parse (Newkeys.dump m) = .ok (m, (Newkeys.dump m).length)
  | .kexdhInit m => KexdhInit.parse (KexdhInit.dump m) = .ok (m, (KexdhInit.dump m).length)
  | .kexdhReply m => KexdhReply.parse (KexdhReply.dump m) = .ok (m, (KexdhReply.dump m).length)
  | .userauthFailure m =>
    UserauthFailure.parse (UserauthFailure.dump m) = .ok (m, (UserauthFailure.dump m).length)
  | .userauthSuccess m =>
    UserauthSuccess.parse (UserauthSuccess.dump m) = .ok (m, (UserauthSuccess.dump m).length)
  | .userauthPkOk m =>
    UserauthPkOk.parse (UserauthPkOk.dump m) = .ok (m, (UserauthPkOk.dump m).length)
  | .globalRequest m =>
    GlobalRequest.parse (GlobalRequest.dump m) = .ok (m, (GlobalRequest.dump m).length)
  | .channelOpen m =>
    ChannelOpen.parse (ChannelOpen.dump m) = .ok (m, (ChannelOpen.dump m).length)
  | .channelOpenConfirmation m =>
    ChannelOpenConfirmation.parse (ChannelOpenConfirmation.dump m) =
      .ok (m, (ChannelOpenConfirmation.dump m).length)
  | .channelOpenFailure m =>
    ChannelOpenFailure.parse (ChannelOpenFailure.dump m) =
      .ok (m, (ChannelOpenFailure.dump m).length)
  | .channelWindowAdjust m =>
    ChannelWindowAdjust.parse (ChannelWindowAdjust.dump m) =
      .ok (m, (ChannelWindowAdjust.dump m).length)
  | .channelData m =>
    ChannelData.parse (ChannelData.dump m) = .ok (m, (ChannelData.dump m).length)
  | .channelExtendedData m =>
    ChannelExtendedData.parse (ChannelExtendedData.dump m) =
      .ok (m, (ChannelExtendedData.dump m).length)
  | .channelEof m => ChannelEof.parse (ChannelEof.dump m) = .ok (m, (ChannelEof.dump m).length)
  | .channelClose m =>
    ChannelClose.parse (ChannelClose.dump m) = .ok (m, (ChannelClose.dump m).length)
  | .channelSuccess m =>
    ChannelSuccess.parse (ChannelSuccess.dump m) = .ok (m, (ChannelSuccess.dump m).length)
  | .channelFailure m =>
    ChannelFailure.parse (ChannelFailure.dump m) = .ok (m, (ChannelFailure.dump m).length)
  | .blob m => Blob.parse (Blob.dump m) = .ok (m, (Blob.dump m).length)

/-- A sample record for evaluating the round-trip law on a concrete input
(the `ChannelOpen` that `Connection::run` sends). -/
def sampleRecord : TaggedRecord :=
  .channelOpen ⟨ascii "session", 0, 4294967295, 262144⟩

/-- C5: for every record R of the message set in spec §4.B (each struct
generated by `parse_dump_struct!` in src/messages.rs, and the `Blob` helper),
with its fields in the ranges Rust's types enforce, parsing the bytes
produced by dumping R succeeds and yields R together with a consumed-byte
count equal to the length of the dumped bytes:
`parse(dump(R)) == (R, len(dump(R)))`. -/
theorem c5_parse_dump_roundtrip (R : TaggedRecord) (h : recordWF R = true) :
    recordRoundTrip R := by
  cases R with
  | disconnect m =>
    simp only [recordWF, blobWF, Bool.and_eq_true, decide_eq_true_eq] at h
    obtain ⟨⟨⟨h1a, h1b⟩, h2a, h2b⟩, h3a, h3b⟩ := h
    simpa [recordRoundTrip] using Disconnect_roundtrip m [] ⟨h1a, h1b⟩ h2a h2b h3a h3b

  | unimplementedMsg m =>
    simp only [recordWF, blobWF, Bool.and_eq_true, decide_eq_true_eq] at h
    simpa [recordRoundTrip] using Unimplemented_roundtrip m [] h

  | serviceRequest m =>
    simp only [recordWF, blobWF, Bool.and_eq_true, decide_eq_true_eq] at h
    simpa [recordRoundTrip] using ServiceRequest_roundtrip m [] h.1 h.2

  | serviceAccept m =>
    simp only [recordWF, blobWF, Bool.and_eq_true, decide_eq_true_eq] at h
    simpa [recordRoundTrip] using ServiceAccept_roundtrip m [] h.1 h.2

  | kexinit m =>
    simp only [recordWF, blobWF, Bool.and_eq_true, decide_eq_true_eq] at h
    obtain ⟨⟨⟨⟨⟨⟨⟨⟨⟨⟨⟨hc0, h1a, h1b⟩, h2a, h2b⟩, h3a, h3b⟩, h4a, h4b⟩, h5a, h5b⟩,
      h6a, h6b⟩, h7a, h7b⟩, h8a, h8b⟩, h9a, h9b⟩, h10a, h10b⟩, hn⟩ := h
    simpa [recordRoundTrip] using Kexinit_roundtrip m [] hc0 h1a h1b h2a h2b h3a h3b
      h4a h4b h5a h5b h6a h6b h7a h7b h8a h8b h9a h9b h10a h10b hn

  | newkeys m =>
    simpa [recordRoundTrip] using Newkeys_roundtrip m []

  | kexdhInit m =>
    simp only [recordWF, blobWF, Bool.and_eq_true, decide_eq_true_eq] at h
    simpa [recordRoundTrip] using KexdhInit_roundtrip m [] h

  | kexdhReply m =>
    simp only [recordWF, blobWF, Bool.and_eq_true, decide_eq_true_eq] at h
    obtain ⟨⟨⟨⟨⟨hk1, hk2⟩, hk3⟩, hk4⟩, hep⟩, ⟨⟨hs1, hs2⟩, hs3⟩, hs4⟩ := h
    simpa [recordRoundTrip] using KexdhReply_roundtrip m [] hk1 hk2 hk3 hk4 hep hs1 hs2 hs3 hs4

  | userauthFailure m =>
    simp only [recordWF, blobWF, Bool.and_eq_true, decide_eq_true_eq] at h
    simpa [recordRoundTrip] using UserauthFailure_roundtrip m [] h.1 h.2

  | userauthSuccess m =>
    simpa [recordRoundTrip] using UserauthSuccess_roundtrip m []

  | userauthPkOk m =>
    simp only [recordWF, blobWF, Bool.and_eq_true, decide_eq_true_eq] at h
    obtain ⟨⟨h1, h2⟩, ⟨⟨h3, h4⟩, h5⟩, h6⟩ := h
    simpa [recordRoundTrip] using UserauthPkOk_roundtrip m [] h1 h2 h3 h4 h5 h6

  | globalRequest m =>
    simp only [recordWF, blobWF, Bool.and_eq_true, decide_eq_true_eq] at h
    simpa [recordRoundTrip] using GlobalRequest_roundtrip m [] h.1 h.2

  | channelOpen m =>
    simp only [recordWF, blobWF, Bool.and_eq_true, decide_eq_true_eq] at h
    obtain ⟨⟨⟨⟨h1, h2⟩, h3⟩, h4⟩, h5⟩ := h
    simpa [recordRoundTrip] using ChannelOpen_roundtrip m [] h1 h2 h3 h4 h5

  | channelOpenConfirmation m =>
    simp only [recordWF, blobWF, Bool.and_eq_true, decide_eq_true_eq] at h
    obtain ⟨⟨⟨h1, h2⟩, h3⟩, h4⟩ := h
    simpa [recordRoundTrip] using ChannelOpenConfirmation_roundtrip m [] h1 h2 h3 h4

  | channelOpenFailure m =>
    simp only [recordWF, blobWF, Bool.and_eq_true, decide_eq_true_eq] at h
    obtain ⟨⟨⟨h1, h2⟩, h3, h4⟩, h5, h6⟩ := h
    simpa [recordRoundTrip] using ChannelOpenFailure_roundtrip m [] h1 h2 h3 h4 h5 h6

  | channelWindowAdjust m =>
    simp only [recordWF, blobWF, Bool.and_eq_true, decide_eq_true_eq] at h
    simpa [recordRoundTrip] using ChannelWindowAdjust_roundtrip m [] h.1 h.2

  | channelData m =>
    simp only [recordWF, blobWF, Bool.and_eq_true, decide_eq_true_eq] at h
    simpa [recordRoundTrip] using ChannelData_roundtrip m [] h.1 h.2

  | channelExtendedData m =>
    simp only [recordWF, blobWF, Bool.and_eq_true, decide_eq_true_eq] at h
    obtain ⟨⟨h1, h2⟩, h3⟩ := h
    simpa [recordRoundTrip] using ChannelExtendedData_roundtrip m [] h1 h2 h3

  | channelEof m =>
    simp only [recordWF, blobWF, Bool.and_eq_true, decide_eq_true_eq] at h
    simpa [recordRoundTrip] using ChannelEof_roundtrip m [] h

  | channelClose m =>
    simp only [recordWF, blobWF, Bool.and_eq_true, decide_eq_true_eq] at h
    simpa [recordRoundTrip] using ChannelClose_roundtrip m [] h

  | channelSuccess m =>
    simp only [recordWF, blobWF, Bool.and_eq_true, decide_eq_true_eq] at h
    simpa [recordRoundTrip] using ChannelSuccess_roundtrip m [] h

  | channelFailure m =>
    simp only [recordWF, blobWF, Bool.and_eq_true, decide_eq_true_eq] at h
    simpa [recordRoundTrip] using ChannelFailure_roundtrip m [] h

  | blob m =>
    simp only [recordWF, blobWF, Bool.and_eq_true, decide_eq_true_eq] at h
    obtain ⟨⟨⟨h1, h2⟩, h3⟩, h4⟩ := h
    simpa [recordRoundTrip] using Blob_roundtrip m [] h1 h2 h3 h4

/-- Witness for C5 at the concrete `ChannelOpen` record that
`Connection::run` sends. -/
theorem c5_parse_dump_roundtrip_witness :
    recordWF sampleRecord = true ∧ recordRoundTrip sampleRecord :=
  ⟨by decide, c5_parse_dump_roundtrip sampleRecord (by decide)⟩

/-! ## Mpint dump/parse facts (for claim C4) -/

theorem land128_eq_zero {n : Nat} (h : n < 128) : n &&& 128 = 0 := by
  rw [show (128 : Nat) = 2 ^ 7 from rfl, Nat.and_two_pow]
  have hb : n.testBit 7 = false := Nat.testBit_lt_two_pow (by omega)
  simp [hb]

theorem land128_ne_zero {n : Nat} (h : 128 ≤ n) (h2 : n < 256) : n &&& 128 ≠ 0 := by
  rw [show (128 : Nat) = 2 ^ 7 from rfl, Nat.and_two_pow]
  have hb : n.testBit 7 = true := by
    simp only [Nat.testBit_to_div_mod, decide_eq_true_eq]
    omega
  simp [hb]

/-- C4 (amended): `UnsignedMpInt::dump` does not strip leading zeros.  For a
magnitude `m` of bytes: (1) for every minimal (well-formed) magnitude the
encoding `u32be m.length ++ m` parses back to `m` consuming all bytes and
dumps back to itself — so `dump(parse(b)) = b` on every well-formed encoding;
(2) an all-zero magnitude dumps as the four bytes `00 00 00 00`; (3) when `m`
holds a non-zero byte, the whole slice is written verbatim, preceded by
exactly one `0x00` iff the high bit of the *first byte of the slice* is set
(not the first retained byte, as the spec claims). -/
theorem c4_mpint_dump (m : List Nat) :
    (minimalMag m = true → m.length < 2 ^ 32 →
      mpintParse (u32be m.length ++ m) = .ok (m, (u32be m.length ++ m).length) ∧
      mpintDump m = u32be m.length ++ m) ∧
    ((m.all fun b => b = 0) = true → mpintDump m = [0, 0, 0, 0]) ∧
    (m.headI < 256 → (m.any fun b => b ≠ 0) = true →
      mpintDump m = u32be (m.length + if 128 ≤ m.headI then 1 else 0) ++
        (if 128 ≤ m.headI then [0] else []) ++ m) := by
  refine ⟨fun hmin hlen => ⟨?_, ?_⟩, fun hall => ?_, fun hlt hany => ?_⟩
  · have := bytesParse_bytesDump m [] hlen
    rw [List.append_nil] at this
    simpa [mpintParse, bytesDump] using this
  · rcases m with _ | ⟨h, t⟩
    · simp [mpintDump]
    · rcases t with _ | ⟨h2, t2⟩
      · simp only [minimalMag, Bool.and_eq_true, decide_eq_true_eq] at hmin
        simp [mpintDump, hmin.1, land128_eq_zero hmin.2]
      · simp only [minimalMag, Bool.and_eq_true, Bool.or_eq_true,
          decide_eq_true_eq] at hmin
        rcases hmin with ⟨hne, hsm⟩ | ⟨⟨hz, hge⟩, hsm⟩
        · simp [mpintDump, hne, land128_eq_zero hsm]
        · subst hz
          have hne2 : h2 ≠ 0 := by omega
          simp [mpintDump, hne2]
  · have hany : (m.any fun b => b ≠ 0) = false := by
      simp only [List.all_eq_true, decide_eq_true_eq] at hall
      simp only [List.any_eq_false, decide_eq_true_eq]
      intro x hx
      simpa using hall x hx
    unfold mpintDump
    rw [if_neg (by rw [hany]; simp)]
    rfl
  · unfold mpintDump
    rw [if_pos hany]
    by_cases hc : 128 ≤ m.headI
    · have hps := land128_ne_zero hc hlt
      rw [if_pos hps, if_pos hc, if_pos hps, if_pos hc]
    · have h0 := land128_eq_zero (show m.headI < 128 by omega)
      have hps : ¬ m.headI &&& 128 ≠ 0 := by simp [h0]
      rw [if_neg hps, if_neg hc, if_neg hps, if_neg hc]

/-- Witness for C4 at concrete magnitudes: the minimal magnitude
`[0x00, 0x9A]` round-trips, `[0x00, 0x00]` dumps as the zero encoding, and
`[0x9A, 0x03]` (high bit set in its first byte) gets exactly one `0x00`
prepended. -/
theorem c4_mpint_dump_witness :
    (mpintParse [0, 0, 0, 2, 0, 154] = .ok ([0, 154], 6) ∧
      mpintDump [0, 154] = [0, 0, 0, 2, 0, 154]) ∧
    mpintDump [0, 0] = [0, 0, 0, 0] ∧
    mpintDump [154, 3] = [0, 0, 0, 3, 0, 154, 3] := by
  refine ⟨⟨?_, ?_⟩, ?_, ?_⟩
  · exact ((c4_mpint_dump [0, 154]).1 (by decide) (by decide)).1
  · exact ((c4_mpint_dump [0, 154]).1 (by decide) (by decide)).2
  · exact (c4_mpint_dump [0, 0]).2.1 (by decide)
  · exact (c4_mpint_dump [154, 3]).2.2 (by decide) (by decide)

/-- C4 counterexample: dumping `UnsignedMpInt([0x00, 0x01])` keeps the
leading zero byte (length field 2), whereas the specified dump strips it
(length field 1): the source's dump does not omit leading zero bytes. -/
theorem c4_mpint_counterexample :
    mpintDump [0, 1] = [0, 0, 0, 2, 0, 1] ∧
    specMpintDump [0, 1] = [0, 0, 0, 1, 1] ∧
    mpintDump [0, 1] ≠ specMpintDump [0, 1] := by decide

/-! ## Packet writer framing (src/packets.rs, `PacketWriter::send_raw`) -/

/-- The `padding_length` computed by `send_raw` (lines 168-173):
`encrypted_length = 4 + (1 + payload_len)`; padding brings it to a multiple
of `block_size`, with no minimum (`match encrypted_length % block_size
{ 0 => 0, n => block_size - n }`). -/
def paddingLength (block_size payload_len : Nat) : Nat :=
  if (4 + 1 + payload_len) % block_size = 0 then 0
  else block_size - (4 + 1 + payload_len) % block_size

/-- The cleartext packet assembled by `send_raw` before optional encryption:
big-endian `packet_length = 1 + payload_len + padding_length`, the
`padding_length` byte, the payload, then zero padding (the `resize` fill). -/
def sendRawClear (block_size : Nat) (payload : List Nat) : List Nat :=
  u32be (1 + payload.length + paddingLength block_size payload.length) ++
    [paddingLength block_size payload.length] ++ payload ++
    List.replicate (paddingLength block_size payload.length) 0

/-! ## Packet I/O state and the rekey handoff (src/packets.rs, src/connection.rs) -/

/-- The size/counter state of `PacketReader` (cipher and HMAC values are
abstracted to the `negociated` flag). -/
structure PacketReaderState where
  packet_number : Nat
  negociated : Bool
  block_size : Nat
  mac_size : Nat
  deriving DecidableEq, Repr

/-- `PacketReader::new`: sequence 0, no cipher, block size 8, MAC size 0. -/
def packetReaderNew : PacketReaderState :=
  { packet_number := 0, negociated := false, block_size := 8, mac_size := 0 }

/-- `PacketReader::set_decryptor` (src/packets.rs lines 31-35). -/
def set_decryptor (st : PacketReaderState) (block_size mac_size : Nat) :
    PacketReaderState :=
  { st with negociated := true, block_size := block_size, mac_size := mac_size }

/-- The size/counter state of `PacketWriter` (no MAC-size field exists on the
writer; the 32-byte HMAC is appended whenever `negociated` is set). -/
structure PacketWriterState where
  packet_number : Nat
  negociated : Bool
  block_size : Nat
  deriving DecidableEq, Repr

/-- `PacketWriter::new`: sequence 0, no cipher, block size 8. -/
def packetWriterNew : PacketWriterState :=
  { packet_number := 0, negociated := false, block_size := 8 }

/-- `PacketWriter::set_encryptor` (src/packets.rs lines 154-157). -/
def set_encryptor (st : PacketWriterState) (block_size : Nat) : PacketWriterState :=
  { st with negociated := true, block_size := block_size }

/-- The NewKeys rekey handoff of `Connection::new` (src/connection.rs lines
168-169): `writer.set_encryptor(Cipher::new(..), HMAC::new(..), 32)` and
`reader.set_decryptor(Cipher::new(..), HMAC::new(..), 32, 32)`; the key and
IV arguments are elided, the size arguments are the source's literals. -/
def rekeyHandoff (w : PacketWriterState) (r : PacketReaderState) :
    PacketWriterState × PacketReaderState :=
  (set_encryptor w 32, set_decryptor r 32 32)

/-! ## Transparent filtering in `PacketReader::recv_raw`
(src/packets.rs lines 103-119) -/

/-- The filtering tail of `recv_raw`, over the sequence of payloads framed by
the underlying packet stream: the first payload byte is converted through
`MessageType::try_from` (unknown bytes fail); `Ignore` (2) recurses to the
next packet; `GlobalRequest` (80) is parsed and recursed over when
`want_reply` is false, returned otherwise; every other payload is returned
unchanged.  An exhausted stream models the underlying blocking read
(`truncatedInput`). -/
def recvFiltered : List (List Nat) → Except Error (List Nat)
  | [] => .error .truncatedInput
  | p :: rest =>
    if messageTypeKnown p.headI then
      if p.headI = 2 then recvFiltered rest
      else if p.headI = 80 then
        match GlobalRequest.parse p with
        | .error e => .error e
        | .ok (global_req, _) =>
          if global_req.want_reply then .ok p else recvFiltered rest
      else .ok p
    else .error (.unknownMessageType p.headI)

/-! ## The version-banner loop (src/connection.rs lines 42-62) -/

/-- The banner-reading loop of `Connection::new`: each `read_line` appends
the next line onto the same `peer_version` string — the buffer is never
cleared — and the loop exits when the *accumulated* buffer starts with
`SSH-2.0-` or `SSH-1.99-`.  The argument is the list of lines the peer's
stream yields (each ending in a newline); `none` models the loop never
exiting (at end of input, `read_line` appends nothing and the loop spins
forever). -/
def bannerLoop (peer_version : List Nat) : List (List Nat) → Option (List Nat)
  | [] => none
  | line :: rest =>
    let acc := peer_version ++ line
    if (ascii "SSH-2.0-").isPrefixOf acc || (ascii "SSH-1.99-").isPrefixOf acc then
      some acc
    else bannerLoop acc rest

/-! ## The authentication await (src/connection.rs line 235) -/

/-- `let _: UserauthSuccess = reader.recv()?`: the received payload is parsed
as `UserauthSuccess` (sequence/cipher handling of `recv` elided; the
`TcpError → Timeout` mapping does not affect parse results). -/
def awaitUserauthSuccess (payload : List Nat) : Except Error (UserauthSuccess × Nat) :=
  UserauthSuccess.parse payload

/-! ## The channel polling loop and write path (src/run.rs) -/

/-- `CLIENT_INITIAL_WINDOW_SIZE = u32::MAX` (src/run.rs line 9). -/
def CLIENT_INITIAL_WINDOW_SIZE : Nat := 2 ^ 32 - 1

/-- `CLIENT_WIN_TELL_TRIGGER = CLIENT_INITIAL_WINDOW_SIZE / 4` (line 10). -/
def CLIENT_WIN_TELL_TRIGGER : Nat := CLIENT_INITIAL_WINDOW_SIZE / 4

/-- `CLIENT_MAX_PACKET_SIZE = 64 * 0x1000` (line 11). -/
def CLIENT_MAX_PACKET_SIZE : Nat := 64 * 0x1000

/-- The mutable state of a `Run` (src/run.rs lines 124-137); the borrowed
connection is elided. -/
structure RunState where
  exit_status : Option Nat
  closed : Bool
  server_channel : Nat
  server_max_packet_size : Nat
  server_window : Nat
  client_window : Nat
  deriving DecidableEq, Repr

/-- `RunEvent` (src/run.rs lines 139-145). -/
inductive RunEvent where
  | none
  | data (d : List Nat)
  | extDataStderr (d : List Nat)
  | stopped (exit_status : Option Nat)
  deriving DecidableEq, Repr

/-- Outcome of one `Run::poll` turn: a returned event with the new state and
the messages sent while handling it, an error, or the arithmetic underflow of
`self.client_window -= data.len()` (a Rust subtraction-overflow panic). -/
inductive PollResult where
  | ok (ev : RunEvent) (st : RunState) (sent : List Message)
  | err (e : Error)
  | underflow
  deriving DecidableEq, Repr

/-- `Run::poll` (src/run.rs lines 148-206) over the result of
`conn.reader.recv()`: a `Timeout` yields `RunEvent::None`; other receive
errors propagate; `ChannelData` decrements the local window with no guard
(`self.client_window -= data.len()`), emits a `ChannelWindowAdjust` and
refills when the window (cast `as u32`) drops under the trigger, and
surfaces the data; `ChannelWindowAdjust` credits the remote window;
`ChannelEof` and an `exit-status` request surface `None`; `ChannelClose` is
mirrored and surfaces `Stopped`; `ChannelExtendedData` with `data_type = 1`
surfaces stderr data; everything else is a fatal `UnexpectedMessageType`. -/
def Run.poll (st : RunState) (recvResult : Except Error Message) : PollResult :=
  match recvResult with
  | .error .timeout => .ok .none st []
  | .error e => .err e
  | .ok msg =>
    match msg with
    | .channelData cd =>
      if st.client_window < cd.data.length then .underflow
      else
        let cw := (st.client_window - cd.data.length) % 2 ^ 32
        if cw < CLIENT_WIN_TELL_TRIGGER then
          .ok (.data cd.data) { st with client_window := CLIENT_INITIAL_WINDOW_SIZE }
            [.channelWindowAdjust ⟨st.server_channel, CLIENT_INITIAL_WINDOW_SIZE - cw⟩]
        else
          .ok (.data cd.data)
            { st with client_window := st.client_window - cd.data.length } []
    | .channelWindowAdjust wa =>
      .ok .none { st with server_window := st.server_window + wa.bytes_to_add } []
    | .channelEof _ => .ok .none st []
    | .channelClose _ =>
      .ok (.stopped st.exit_status) { st with closed := true }
        [.channelClose ⟨st.server_channel⟩]
    | .channelRequest (.exitStatus _ es) =>
      .ok .none { st with exit_status := some es } []
    | .channelExtendedData ed =>
      if ed.data_type = 1 then .ok (.extDataStderr ed.data) st []
      else .err (.unexpectedMessageType msg.typ)
    | _ => .err (.unexpectedMessageType msg.typ)

/-- The chunking loop of `Run::write_poll` (src/run.rs lines 221-248),
returning the list of `ChannelData` data fields sent for one application
buffer: each turn computes `step = min(server_max_packet_size,
server_window)`; when `step` covers the remaining data it is sent whole and
the loop breaks; otherwise a `step`-byte chunk is sent and the window
decremented.  The in-loop `poll` is modelled as returning no window credit
(the claim under verification assumes the remote window is never exhausted);
with `step = 0` and data remaining the code sends nothing and polls forever,
so the emitted list is empty. -/
def writeChunks (server_max_packet_size : Nat) :
    Nat → List Nat → List (List Nat)
  | server_window, data =>
    let step := min server_max_packet_size server_window
    if data.length ≤ step then [data]
    else if 0 < step then
      data.take step ::
        writeChunks server_max_packet_size (server_window - step) (data.drop step)
    else []
  termination_by _ data => data.length
  decreasing_by
    simp only [List.length_drop]
    omega

/-! ## Claim C1 — block/MAC sizes installed by the rekey handoff -/

/-- C1: after the NewKeys handoff in `Connection::new`, the installed block
size is 32 in both directions — not the 16 (one AES block) the specification
mandates — and the MAC size installed into the reader is 32 (the writer has
no MAC-size field; its 32-byte HMAC is implied by `negociated`). -/
theorem c1_rekey_installs_block_32 :
    (rekeyHandoff packetWriterNew packetReaderNew).1.block_size = 32 ∧
    (rekeyHandoff packetWriterNew packetReaderNew).2.block_size = 32 ∧
    (rekeyHandoff packetWriterNew packetReaderNew).2.mac_size = 32 ∧
    (rekeyHandoff packetWriterNew packetReaderNew).1.negociated = true ∧
    (rekeyHandoff packetWriterNew packetReaderNew).2.negociated = true ∧
    (rekeyHandoff packetWriterNew packetReaderNew).1.block_size ≠ 16 ∧
    (rekeyHandoff packetWriterNew packetReaderNew).2.block_size ≠ 16 := by
  decide

/-! ## Claim C2 — no minimum-4 padding in `send_raw` -/

/-- C2: `send_raw` computes the padding with no minimum: with encryption and
MAC active and the block size 32 that the handoff installs, a 27-byte payload
is framed with `padding_length = 0` (byte 4 of the cleartext packet), and with
the spec's block size 16 an 11-byte payload also gets padding 0; the
"add another block when pad < 4" step does not exist.  (Pre-KEX, the 1-byte
`NewKeys` payload gets padding 2.) -/
theorem c2_no_minimum_padding :
    paddingLength 32 27 = 0 ∧
    (sendRawClear 32 (List.replicate 27 7))[4]? = some 0 ∧
    paddingLength 16 11 = 0 ∧
    paddingLength 8 1 = 2 := by
  decide

/-! ## Claim C3 — the banner loop never discards junk lines -/

theorem isPrefixOf_cons_head {a : Nat} {l m : List Nat}
    (h : (a :: l).isPrefixOf m = true) : m.headI = a := by
  cases m with
  | nil => simp [List.isPrefixOf] at h
  | cons b bs =>
    simp only [List.isPrefixOf, Bool.and_eq_true, beq_iff_eq] at h
    simp [h.1]

theorem bannerLoop_stuck (lines : List (List Nat)) :
    ∀ acc : List Nat, acc.headI ≠ 83 → acc ≠ [] → bannerLoop acc lines = none := by
  induction lines with
  | nil => intro acc _ _; rfl
  | cons line rest ih =>
    intro acc hh hne
    have hhead : (acc ++ line).headI = acc.headI := by
      cases acc with
      | nil => exact absurd rfl hne
      | cons a t => simp
    have hne2 : acc ++ line ≠ [] := by
      cases acc with
      | nil => exact absurd rfl hne
      | cons a t => simp
    have hp1 : (ascii "SSH-2.0-").isPrefixOf (acc ++ line) = false := by
      rw [show ascii "SSH-2.0-" = 83 :: ascii "SH-2.0-" from rfl]
      by_contra hcon
      simp only [Bool.not_eq_false] at hcon
      exact hh (hhead ▸ isPrefixOf_cons_head hcon)
    have hp2 : (ascii "SSH-1.99-").isPrefixOf (acc ++ line) = false := by
      rw [show ascii "SSH-1.99-" = 83 :: ascii "SH-1.99-" from rfl]
      by_contra hcon
      simp only [Bool.not_eq_false] at hcon
      exact hh (hhead ▸ isPrefixOf_cons_head hcon)
    simp only [bannerLoop, hp1, hp2, Bool.or_self, Bool.false_eq_true, if_false]
    exact ih (acc ++ line) (hhead ▸ hh) hne2

/-- C3: a peer stream whose banner is preceded by a non-banner line is never
accepted.  The loop in `Connection::new` appends each `read_line` result to
the same uncleared `peer_version` buffer and applies the prefix test to the
whole buffer, so once the junk line `foo\r\n` has been read no later line —
including a valid `SSH-2.0-` banner — can make the test succeed, and the
loop never terminates (modelled as `none`). -/
theorem c3_banner_junk_never_accepted (lines : List (List Nat)) :
    bannerLoop [] (ascii "foo\r\n" :: lines) = none := by
  have h1 : (ascii "SSH-2.0-").isPrefixOf ([] ++ ascii "foo\r\n") = false := by decide
  have h2 : (ascii "SSH-1.99-").isPrefixOf ([] ++ ascii "foo\r\n") = false := by decide
  simp only [bannerLoop, h1, h2, Bool.or_self, Bool.false_eq_true, if_false]
  exact bannerLoop_stuck lines ([] ++ ascii "foo\r\n") (by decide) (by decide)

/-! ## Claim C6 — transparent filtering of `Ignore` and no-reply
`GlobalRequest` -/

/-- C6: the packet reader's filter never returns a payload whose first byte
is `Ignore` (2), nor a `GlobalRequest` (80) payload that parses with
`want_reply = false`; such payloads are consumed and the next packet is
processed instead, and every other payload with a known type byte is
returned to the caller unchanged. -/
theorem c6_recv_filtering :
    (∀ ps q, recvFiltered ps = .ok q →
      q.headI ≠ 2 ∧
        ∀ gr n, q.headI = 80 → GlobalRequest.parse q = .ok (gr, n) →
          gr.want_reply = true) ∧
    (∀ p ps, p.headI = 2 → recvFiltered (p :: ps) = recvFiltered ps) ∧
    (∀ p ps gr n, p.headI = 80 → GlobalRequest.parse p = .ok (gr, n) →
      gr.want_reply = false → recvFiltered (p :: ps) = recvFiltered ps) ∧
    (∀ p ps, messageTypeKnown p.headI = true → p.headI ≠ 2 → p.headI ≠ 80 →
      recvFiltered (p :: ps) = .ok p) ∧
    (∀ p ps gr n, p.headI = 80 → GlobalRequest.parse p = .ok (gr, n) →
      gr.want_reply = true → recvFiltered (p :: ps) = .ok p) := by
  refine ⟨?_, ?_, ?_, ?_, ?_⟩
  · intro ps
    induction ps with
    | nil => intro q hq; simp [recvFiltered] at hq
    | cons p rest ih =>
      intro q hq
      simp only [recvFiltered] at hq
      split_ifs at hq with hk h2 h80
      · exact ih q hq
      · revert hq
        split
        · intro hq; simp at hq
        · rename_i gr0 n0 hpar0
          split_ifs with hwr
          · intro hq
            simp only [Except.ok.injEq] at hq
            subst hq
            refine ⟨by omega, fun gr n _ hpar => ?_⟩
            rw [hpar0] at hpar
            simp only [Except.ok.injEq, Prod.mk.injEq] at hpar
            rw [← hpar.1, hwr]
          · intro hq; exact ih q hq
      · simp only [Except.ok.injEq] at hq
        subst hq
        exact ⟨h2, fun gr n h80q _ => absurd h80q h80⟩
  · intro p ps h
    simp [recvFiltered, h, show messageTypeKnown 2 = true from by decide]
  · intro p ps gr n h80 hpar hwr
    simp [recvFiltered, h80, show messageTypeKnown 80 = true from by decide,
      hpar, hwr]
  · intro p ps hk h2 h80
    simp only [recvFiltered]
    rw [if_pos hk, if_neg h2, if_neg h80]
  · intro p ps gr n h80 hpar hwr
    simp [recvFiltered, h80, show messageTypeKnown 80 = true from by decide,
      hpar, hwr]

/-- Witness for C6 at concrete payloads: an `Ignore` payload and a no-reply
`GlobalRequest` are skipped, a `Newkeys` payload (type 21) is returned
unchanged, and a `GlobalRequest` with `want_reply = true` is returned. -/
theorem c6_recv_filtering_witness :
    (([21] : List Nat).headI ≠ 2 ∧
      ∀ gr n, ([21] : List Nat).headI = 80 →
        GlobalRequest.parse [21] = .ok (gr, n) → gr.want_reply = true) ∧
    recvFiltered [[2, 9], [21]] = recvFiltered [[21]] ∧
    recvFiltered [GlobalRequest.dump ⟨ascii "x", false⟩, [21]] =
      recvFiltered [[21]] ∧
    recvFiltered [[21], [2, 9]] = .ok [21] ∧
    recvFiltered [GlobalRequest.dump ⟨ascii "x", true⟩, [21]] =
      .ok (GlobalRequest.dump ⟨ascii "x", true⟩) :=
  ⟨c6_recv_filtering.1 [[21], [2, 9]] [21] (by decide),
   c6_recv_filtering.2.1 [2, 9] [[21]] (by decide),
   c6_recv_filtering.2.2.1 (GlobalRequest.dump ⟨ascii "x", false⟩) [[21]]
     ⟨ascii "x", false⟩ 7 (by decide) (by decide) (by decide),
   c6_recv_filtering.2.2.2.1 [21] [[2, 9]] (by decide) (by decide) (by decide),
   c6_recv_filtering.2.2.2.2 (GlobalRequest.dump ⟨ascii "x", true⟩) [[21]]
     ⟨ascii "x", true⟩ 7 (by decide) (by decide) (by decide)⟩

/-! ## Claim C7 — a `UserauthFailure` reply during authentication -/

/-- C7 (amended): when the server answers the authentication request with a
well-formed `UserauthFailure`, the `let _: UserauthSuccess = reader.recv()?`
in `Connection::new` fails with `UnexpectedMessageType(UserauthFailure)`
(message type 51), raised by `check_msg_type!` — not with the
`AuthenticationFailure` kind the specification names. -/
theorem c7_userauth_failure_error (m : UserauthFailure)
    (h1 : m.allowed_auth.length < 2 ^ 32) (h2 : utf8Valid m.allowed_auth = true) :
    awaitUserauthSuccess (UserauthFailure.dump m) =
      .error (.unexpectedMessageType 51) := by
  have hrt := UserauthFailure_roundtrip m [] h1 h2
  rw [List.append_nil] at hrt
  have hcore : UserauthFailure.parseCore (UserauthFailure.dump m) =
      .ok (m, (UserauthFailure.dump m).length) := by
    have hck : checkMsgType 51 (UserauthFailure.dump m) = .ok () := by
      obtain ⟨aa, ps⟩ := m
      simp only [UserauthFailure.dump, u8Dump, List.cons_append, List.nil_append,
        List.append_assoc]
      exact checkMsgType_self _ _ (by decide)
    rw [UserauthFailure.parse, hck] at hrt
    simpa using hrt
  obtain ⟨aa, ps⟩ := m
  simp only [UserauthFailure.dump, u8Dump, List.cons_append, List.nil_append,
    List.append_assoc] at hcore ⊢
  simp only [awaitUserauthSuccess, UserauthSuccess.parse, checkMsgType, u8Parse,
    ebind_ok]
  rw [if_pos (by decide), if_neg (by decide)]
  simp only [Message.parse, List.head?_cons, Option.some.injEq]
  rw [show messageTypeKnown 51 = true from rfl]
  simp only [if_true, hcore, Except.map, ebind_error]

/-- Witness for C7 at a concrete `UserauthFailure` reply. -/
theorem c7_userauth_failure_error_witness :
    awaitUserauthSuccess (UserauthFailure.dump ⟨ascii "publickey,password", false⟩) =
      .error (.unexpectedMessageType 51) :=
  c7_userauth_failure_error ⟨ascii "publickey,password", false⟩ (by decide) (by decide)

/-- C7 counterexample: the error produced for a `UserauthFailure` reply is
`UnexpectedMessageType(51)`, which is not `AuthenticationFailure` — the
sources never construct an `AuthenticationFailure` at all. -/
theorem c7_not_authentication_failure :
    awaitUserauthSuccess (UserauthFailure.dump ⟨ascii "publickey,password", false⟩) ≠
      .error .authenticationFailure := by decide

/-! ## Claim C8 — chunk count of `write_poll` -/

theorem c8_aux : ∀ (fuel M W : Nat) (data : List Nat), data.length ≤ fuel →
    0 < M → 0 < data.length → data.length ≤ W →
    (writeChunks M W data).length = (data.length + M - 1) / M ∧
      ∀ c ∈ writeChunks M W data, c.length ≤ M := by
  intro fuel
  induction fuel with
  | zero => intro M W data hf _ hd _; omega
  | succ n ih =>
    intro M W data hf hM hd hW
    rw [writeChunks]
    by_cases h1 : data.length ≤ min M W
    · rw [if_pos h1]
      have hlm : data.length ≤ M := le_trans h1 (min_le_left _ _)
      constructor
      · simp only [List.length_singleton]
        symm
        apply Nat.div_eq_of_lt_le <;> omega
      · intro c hc
        simp only [List.mem_singleton] at hc
        subst hc
        exact hlm
    · rw [if_neg h1]
      have hmin : min M W = M := by omega
      rw [if_pos (show 0 < min M W by omega)]
      rw [hmin]
      have hlt : M < data.length := by omega
      obtain ⟨ihc, ihb⟩ := ih M (W - M) (data.drop M)
        (by simp only [List.length_drop]; omega) hM
        (by simp only [List.length_drop]; omega)
        (by simp only [List.length_drop]; omega)
      constructor
      · simp only [List.length_cons, ihc, List.length_drop]
        have e1 : data.length - M + M - 1 = data.length - 1 := by omega
        have e2 : data.length + M - 1 = data.length - 1 + M := by omega
        rw [e1, e2, Nat.add_div_right _ hM]
      · intro c hc
        rcases List.mem_cons.mp hc with hc1 | hc2
        · subst hc1
          simp only [List.length_take]
          omega
        · exact ihb c hc2

/-- C8 (amended): for a non-empty application buffer of `N = data.length`
bytes, with `server_max_packet_size = M ≥ 1` and a remote window that is
never exhausted (`N ≤ W`), `write_poll` emits exactly `⌈N/M⌉` `ChannelData`
messages, each carrying at most `M` bytes.  (An empty buffer still emits one
empty `ChannelData`; see the counterexample.) -/
theorem c8_write_chunk_count (M W : Nat) (data : List Nat) (hM : 0 < M)
    (hd : 0 < data.length) (hW : data.length ≤ W) :
    (writeChunks M W data).length = (data.length + M - 1) / M ∧
      ∀ c ∈ writeChunks M W data, c.length ≤ M :=
  c8_aux data.length M W data le_rfl hM hd hW

/-- Witness for C8: a 5-byte buffer with max packet size 2 and window 5
is sent as ⌈5/2⌉ = 3 chunks of at most 2 bytes. -/
theorem c8_write_chunk_count_witness :
    (writeChunks 2 5 [1, 2, 3, 4, 5]).length = (5 + 2 - 1) / 2 ∧
      ∀ c ∈ writeChunks 2 5 [1, 2, 3, 4, 5], c.length ≤ 2 :=
  c8_write_chunk_count 2 5 [1, 2, 3, 4, 5] (by decide) (by decide) (by decide)

/-- C8 counterexample: an empty buffer (N = 0) emits one (empty)
`ChannelData` message, not ⌈0/M⌉ = 0 messages: in `write_poll`,
`step >= data.len()` holds immediately and the whole (empty) buffer is
sent. -/
theorem c8_empty_write_counterexample :
    writeChunks 5 10 [] = [[]] ∧
    (writeChunks 5 10 []).length = 1 ∧
    (List.length ([] : List Nat) + 5 - 1) / 5 = 0 := by
  have h : writeChunks 5 10 [] = [[]] := by
    rw [writeChunks]
    norm_num
  exact ⟨h, by simp [h], by decide⟩

/-! ## Claim C9 — extended-data handling in `Run::poll` -/

/-- C9 (amended): a `ChannelExtendedData` with `data_type = 1` surfaces the
stderr event, but any other `data_type` falls through to the catch-all arm
and fails the poll with `UnexpectedMessageType(ChannelExtendedData)` (type
byte 95) — it is not surfaced as generic extended data. -/
theorem c9_extended_data_surfacing (st : RunState) (ch dt : Nat) (d : List Nat) :
    (dt = 1 → Run.poll st (.ok (.channelExtendedData ⟨ch, dt, d⟩)) =
      .ok (.extDataStderr d) st []) ∧
    (dt ≠ 1 → Run.poll st (.ok (.channelExtendedData ⟨ch, dt, d⟩)) =
      .err (.unexpectedMessageType 95)) := by
  constructor
  · intro h
    subst h
    simp [Run.poll]
  · intro h
    simp [Run.poll, Message.typ, h]

/-- A concrete `Run` state (fields as after a typical channel open). -/
def runStateSample : RunState :=
  { exit_status := none, closed := false, server_channel := 3,
    server_max_packet_size := 32768, server_window := 2097152,
    client_window := 4294967295 }

/-- Witness for C9 at concrete extended-data messages. -/
theorem c9_extended_data_surfacing_witness :
    Run.poll runStateSample (.ok (.channelExtendedData ⟨0, 1, [101]⟩)) =
      .ok (.extDataStderr [101]) runStateSample [] ∧
    Run.poll runStateSample (.ok (.channelExtendedData ⟨0, 2, [101]⟩)) =
      .err (.unexpectedMessageType 95) :=
  ⟨(c9_extended_data_surfacing runStateSample 0 1 [101]).1 rfl,
   (c9_extended_data_surfacing runStateSample 0 2 [101]).2 (by decide)⟩

/-- C9 counterexample: a `ChannelExtendedData` with `data_type = 0` makes
`Run::poll` return the fatal `UnexpectedMessageType` error instead of
surfacing a data event. -/
theorem c9_extended_data_counterexample :
    Run.poll runStateSample (.ok (.channelExtendedData ⟨0, 0, [101, 114, 114]⟩)) =
      .err (.unexpectedMessageType 95) := by
  decide

/-! ## Claim C10 — the unguarded window decrement in `Run::poll` -/

/-- C10: handling `ChannelData` subtracts `data.len()` from `client_window`
with no guard: when `data.len() ≤ client_window` the subtraction stays in
range and poll surfaces the data event normally, and when the message
carries more bytes than the remaining window the subtraction underflows. -/
theorem c10_channel_data_window (st : RunState) (ch : Nat) (d : List Nat) :
    (d.length ≤ st.client_window →
      ∃ st2 sent, Run.poll st (.ok (.channelData ⟨ch, d⟩)) =
        .ok (.data d) st2 sent) ∧
    (st.client_window < d.length →
      Run.poll st (.ok (.channelData ⟨ch, d⟩)) = .underflow) := by
  constructor
  · intro h
    simp only [Run.poll]
    rw [if_neg (by simp only [Nat.not_lt]; exact h)]
    by_cases hc : (st.client_window - d.length) % 2 ^ 32 < CLIENT_WIN_TELL_TRIGGER
    · exact ⟨{ st with client_window := CLIENT_INITIAL_WINDOW_SIZE },
        [.channelWindowAdjust ⟨st.server_channel,
          CLIENT_INITIAL_WINDOW_SIZE - (st.client_window - d.length) % 2 ^ 32⟩],
        if_pos hc⟩
    · exact ⟨{ st with client_window := st.client_window - d.length }, [],
        if_neg hc⟩
  · intro h
    simp only [Run.poll]
    rw [if_pos h]

/-- A `Run` state with a small remaining local window. -/
def runStateSmall : RunState :=
  { exit_status := none, closed := false, server_channel := 0,
    server_max_packet_size := 0, server_window := 0, client_window := 10 }

/-- Witness for C10: 3 bytes fit a window of 10 and surface normally;
20 bytes underflow it. -/
theorem c10_channel_data_window_witness :
    (∃ st2 sent, Run.poll runStateSmall (.ok (.channelData ⟨0, [7, 8, 9]⟩)) =
      .ok (.data [7, 8, 9]) st2 sent) ∧
    Run.poll runStateSmall (.ok (.channelData ⟨0, List.replicate 20 0⟩)) =
      .underflow :=
  ⟨(c10_channel_data_window runStateSmall 0 [7, 8, 9]).1 (by decide),
   (c10_channel_data_window runStateSmall 0 (List.replicate 20 0)).2 (by decide)⟩

end Coolssh
